import Mathlib

/-!
The usque client: shallow embedding of the runtime data plane.

Verification development for the `usque` MASQUE client.  The Go code is
embedded as pure Lean functions with explicit state passing; calls that leave
the repository (x509, bufio, the kernel, the QUIC stack) occur as oracles or as
scripted results, and every effect a function performs is recorded in a trace.

Sections follow the source tree:
* `Usque.Masque`  : `internal/transport/masque/masque.go`
* `Usque.Router`  : `internal/router/router.go`
* `Usque.Tun`     : `internal/inbound/tun/tun.go`
* `Usque.Mixed`   : `internal/inbound/mixed/mixed.go`
-/

namespace Usque

/-- A byte string; every element stands for one octet. -/
abbrev Bytes := List Nat

/-- Go `error` values as far as the code distinguishes them: `errors.Is(err, io.EOF)`,
`errors.Is(err, context.Canceled)`, and everything else (carrying its message). -/
inductive Error where
  | EOF
  | Canceled
  | other (msg : String)
  | wrap (pre : String) (cause : Error)
  deriving DecidableEq, Repr

/-- The text of `err.Error()`. -/
def Error.msg : Error → String
  | .EOF => "EOF"
  | .Canceled => "context canceled"
  | .other m => m
  | .wrap p c => p ++ c.msg

/-- The test `errors.Is(err, io.EOF)`; `%w` wrapping is looked through. -/
def Error.isEOF : Error → Bool
  | .EOF => true
  | .Canceled => false
  | .other _ => false
  | .wrap _ c => c.isEOF

/-- The test `errors.Is(err, io.EOF) || errors.Is(err, context.Canceled)`; `%w` wrapping
is looked through. -/
def Error.isEOFOrCanceled : Error → Bool
  | .EOF => true
  | .Canceled => true
  | .other _ => false
  | .wrap _ c => c.isEOFOrCanceled

/-! ## internal/transport/masque/masque.go -/

namespace Masque

/-- Embeds `ecdsa.PublicKey`: a curve identifier and the affine coordinates. -/
structure EcdsaPublicKey where
  Curve : Nat
  X : Nat
  Y : Nat
  deriving DecidableEq, Repr

/-- Embeds `(*ecdsa.PublicKey).Equal`: same coordinates and same curve. -/
def EcdsaPublicKey.Equal (pub xx : EcdsaPublicKey) : Bool :=
  decide (pub.X = xx.X) && decide (pub.Y = xx.Y) && decide (pub.Curve = xx.Curve)

/-- The dynamic type of `x509.Certificate.PublicKey` (an `any` in Go): the verifier only
asks whether it is a `*ecdsa.PublicKey`. -/
inductive PublicKey where
  | ecdsa (k : EcdsaPublicKey)
  | other (algorithm : Nat)
  deriving DecidableEq, Repr

/-- The part of `x509.Certificate` the verifier reads. -/
structure Certificate where
  Raw : Bytes
  PublicKey : PublicKey
  deriving DecidableEq, Repr

/-- Errors the peer-certificate verifier can return. -/
inductive VerifyError where
  | parse (msg : String)
  | ErrUnsupportedAlgorithm
  | CertificateInvalidError (Cert : Certificate) (Reason : Nat) (Detail : String)
  deriving DecidableEq, Repr

/-- The `Detail` string of the pinning failure. -/
def pinDetail : String :=
  "remote endpoint has a different public key than what we trust in config.json"

/-- The closure assigned to `VerifyPeerCertificate` in `PrepareTlsConfig`.
`parseCertificate` stands for `x509.ParseCertificate`; the result is Go's `error`
(`none` is `nil`).  `verifiedChains` is received and never read. -/
def VerifyPeerCertificate (parseCertificate : Bytes → Except String Certificate)
    (peerPubKey : EcdsaPublicKey) (rawCerts : List Bytes)
    (_verifiedChains : List (List Certificate)) : Option VerifyError :=
  match rawCerts with
  | [] => none
  | leaf :: _ =>
    match parseCertificate leaf with
    | .error e => some (.parse e)
    | .ok cert =>
      match cert.PublicKey with
      | .other _ => some .ErrUnsupportedAlgorithm
      | .ecdsa k =>
        if !k.Equal peerPubKey then
          some (.CertificateInvalidError cert 10 pinDetail)
        else none

/-- A toy DER reader used for concrete evaluations: `[0, c, x, y]` is a certificate with
an ECDSA key, `[1, a]` one with another algorithm, anything else does not parse. -/
def sampleParse (raw : Bytes) : Except String Certificate :=
  match raw with
  | [0, c, x, y] => .ok { Raw := raw, PublicKey := .ecdsa ⟨c, x, y⟩ }
  | [1, a] => .ok { Raw := raw, PublicKey := .other a }
  | _ => .error "x509: malformed certificate"

/-- A pinned key for concrete evaluations. -/
def samplePin : EcdsaPublicKey := ⟨256, 7, 9⟩

end Masque


/-! ## internal/router/router.go -/

namespace Router

/-- A non-nil value of the `Dialer` interface, identified by the object behind it
(in practice a `*netstack.Net`). -/
structure Dialer where
  id : Nat
  deriving DecidableEq, Repr

/-- Embeds `DefaultRouter`: the one slot `netDialer`; `none` is the nil interface.  The mutex
serialises accesses and has no state of its own in a sequential model. -/
structure DefaultRouter where
  netDialer : Option Dialer
  deriving DecidableEq, Repr

/-- Embeds `router.New`. -/
def New : DefaultRouter := { netDialer := none }

/-- The error text of `GetDefaultDialer`. -/
def noDialerMsg : String :=
  "no default network dialer is available; a 'tun' inbound with 'netstack' must be configured"

/-- Embeds `SetDefaultDialer`: store the argument (which may be nil) in the slot. -/
def DefaultRouter.SetDefaultDialer (r : DefaultRouter) (dialer : Option Dialer) :
    DefaultRouter :=
  { r with netDialer := dialer }

/-- Embeds `GetDefaultDialer`: the result together with the router after the call. -/
def DefaultRouter.GetDefaultDialer (r : DefaultRouter) :
    Except Error Dialer × DefaultRouter :=
  match r.netDialer with
  | none => (.error (.other noDialerMsg), r)
  | some d => (.ok d, r)

/-- One call on a router: `SetDefaultDialer(d)` or `GetDefaultDialer()`. -/
inductive Call where
  | set (d : Option Dialer)
  | get
  deriving DecidableEq, Repr

/-- The router after one call. -/
def DefaultRouter.call (r : DefaultRouter) : Call → DefaultRouter
  | .set d => r.SetDefaultDialer d
  | .get => r.GetDefaultDialer.2

/-- The router after a sequence of calls, oldest first. -/
def DefaultRouter.calls (r : DefaultRouter) (cs : List Call) : DefaultRouter :=
  cs.foldl DefaultRouter.call r

/-- The arguments of the `SetDefaultDialer` calls of a sequence, oldest first. -/
def setArgs : List Call → List (Option Dialer)
  | [] => []
  | .set d :: cs => d :: setArgs cs
  | .get :: cs => setArgs cs

end Router

/-! ## internal/config/config.go -/

namespace Config

/-- What `json.Unmarshal` stores in an `interface{}`. -/
inductive Value where
  | null
  | bool (b : Bool)
  | number (x : Rat)
  | str (s : String)
  | array (xs : List Value)
  | object (kvs : List (String × Value))

/-- Embeds `InboundOptions`; the Go field `Type` is written `Typ`. -/
structure InboundOptions where
  Typ : String
  Tag : String
  Options : List (String × Value)

/-- Embeds `m[key].(string)` on an options map: the string and `ok`. -/
def InboundOptions.getString (o : InboundOptions) (key : String) : Option String :=
  match o.Options.lookup key with
  | some (.str s) => some s
  | _ => none

/-- Embeds `m[key].(float64)` on an options map: the number and `ok`.  A JSON number is
held as the exact value of its `float64`. -/
def InboundOptions.getNumber (o : InboundOptions) (key : String) : Option Rat :=
  match o.Options.lookup key with
  | some (.number x) => some x
  | _ => none

end Config

/-! ## internal/transport/masque: masque.go (continued), transport.go, tunnel.go -/

namespace Masque

open Config

/-- Embeds `ecdsa.PrivateKey`. -/
structure EcdsaPrivateKey where
  PublicKey : EcdsaPublicKey
  D : Nat
  deriving DecidableEq, Repr

/-- Embeds `tls.Certificate`: the chain and the private key. -/
structure TlsCertificate where
  Chain : List Bytes
  PrivateKey : EcdsaPrivateKey
  deriving DecidableEq, Repr

/-- The `tls.Config` built by `PrepareTlsConfig`; the verifier closure is stored with the
pinned key it captured. -/
structure TlsConfig where
  Certificates : List TlsCertificate
  ServerName : String
  NextProtos : List String
  InsecureSkipVerify : Bool
  VerifyPeerCertificate :
    (Bytes → Except String Certificate) → List Bytes → List (List Certificate) →
      Option VerifyError

/-- Embeds `http3.NextProtoH3`. -/
def NextProtoH3 : String := "h3"

/-- Embeds `PrepareTlsConfig`; its error result is always nil. -/
def PrepareTlsConfig (privKey : EcdsaPrivateKey) (peerPubKey : EcdsaPublicKey)
    (cert : List Bytes) (sni : String) : Except Error TlsConfig :=
  .ok { Certificates := [{ Chain := cert, PrivateKey := privKey }]
        ServerName := sni
        NextProtos := [NextProtoH3]
        InsecureSkipVerify := true
        VerifyPeerCertificate := fun parseCertificate rawCerts verifiedChains =>
          VerifyPeerCertificate parseCertificate peerPubKey rawCerts verifiedChains }

/-- The `quic.Config` fields set by `DefaultQuicConfig`; the period is in nanoseconds. -/
structure QuicConfig where
  EnableDatagrams : Bool
  InitialPacketSize : Nat
  KeepAlivePeriod : Nat
  deriving DecidableEq, Repr

/-- Embeds `DefaultQuicConfig`. -/
def DefaultQuicConfig (keepalivePeriod : Nat) (initialPacketSize : Nat) : QuicConfig :=
  { EnableDatagrams := true
    InitialPacketSize := initialPacketSize
    KeepAlivePeriod := keepalivePeriod }

/-- Embeds `net.UDPAddr`; `IP` is a `net.IP` byte slice, `none` being nil. -/
structure UDPAddr where
  IP : Option Bytes
  Port : Nat
  deriving DecidableEq, Repr

/-- Embeds `net.IP.To4`: a 4-byte address, or the last four bytes of an IPv4-mapped
16-byte address, else nil. -/
def To4 (ip : Option Bytes) : Option Bytes :=
  match ip with
  | none => none
  | some bs =>
    if bs.length = 4 then some bs
    else if bs.length = 16 ∧ bs.take 10 = List.replicate 10 0 ∧ (bs.drop 10).take 2 = [255, 255]
    then some (bs.drop 12)
    else none

/-- Embeds `net.IPv4zero`. -/
def IPv4zero : Bytes := [0, 0, 0, 0]

/-- Embeds `net.IPv6zero`. -/
def IPv6zero : Bytes := List.replicate 16 0

/-- Embeds `ConnectSNI`. -/
def ConnectSNI : String := "consumer-masque.cloudflareclient.com"

/-- Embeds `ConnectURI`; the braces are the URI template's. -/
def ConnectURI : String := "https://\x7bhost\x7d/.well-known/masque/udp/\x7bport\x7d/"

/-- Embeds `time.Second`, in nanoseconds. -/
def Second : Nat := 1000000000

/-- The global `config.AppConfig` of the legacy configuration package, which lies outside
the source tree: what its two key getters return and its `EndpointV4` field. -/
structure AppConfig where
  GetEcPrivateKey : Except Error EcdsaPrivateKey
  GetEcEndpointPublicKey : Except Error EcdsaPublicKey
  EndpointV4 : String

/-- Standard-library calls made while constructing a transport: `x509.CreateCertificate`
for the self-signed certificate and `net.ParseIP`. -/
structure Libs where
  CreateCertificate : EcdsaPrivateKey → Except Error Bytes
  ParseIP : String → Option Bytes

/-- Embeds `GenerateCert`. -/
def GenerateCert (libs : Libs) (privKey : EcdsaPrivateKey) (_pubKey : EcdsaPublicKey) :
    Except Error (List Bytes) :=
  match libs.CreateCertificate privKey with
  | .error err => .error err
  | .ok cert => .ok [cert]

/-- Embeds `Transport`. -/
structure Transport where
  tag : String
  tlsConfig : TlsConfig
  quicConfig : QuicConfig
  endpoint : UDPAddr

/-- Embeds `NewTransport`.  `options` is received and not read. -/
def NewTransport (app : AppConfig) (libs : Libs) (tag : String)
    (_options : List (String × Value)) : Except Error Transport :=
  match app.GetEcPrivateKey with
  | .error err => .error err
  | .ok privKey =>
    match app.GetEcEndpointPublicKey with
    | .error err => .error err
    | .ok peerPubKey =>
      match GenerateCert libs privKey privKey.PublicKey with
      | .error err => .error err
      | .ok cert =>
        let sni := ConnectSNI
        let keepalive := 30 * Second
        let initialPacketSize := 1242
        let connectPort := 443
        match PrepareTlsConfig privKey peerPubKey cert sni with
        | .error err => .error err
        | .ok tlsConfig =>
          let endpoint : UDPAddr := { IP := libs.ParseIP app.EndpointV4, Port := connectPort }
          .ok { tag := tag
                tlsConfig := tlsConfig
                quicConfig := DefaultQuicConfig keepalive initialPacketSize
                endpoint := endpoint }

/-- Embeds `net.UDPConn`: its identity and what its `Close` returns. -/
structure UDPConn where
  name : String
  closeErr : Option Error
  deriving DecidableEq, Repr

/-- The QUIC connection returned by `quic.Dial`. -/
structure QuicConn where
  id : Nat
  deriving DecidableEq, Repr

/-- The `http3.Transport` built in `ConnectTunnel`, and what its `Close` returns. -/
structure H3Transport where
  EnableDatagrams : Bool
  AdditionalSettings : List (Nat × Nat)
  DisableCompression : Bool
  closeErr : Option Error
  deriving DecidableEq, Repr

/-- Embeds `connectip.Conn`: its identity and what its `Close` returns. -/
structure IPConn where
  name : String
  closeErr : Option Error
  deriving DecidableEq, Repr

/-- The fields of `http.Response` that `StartTunnel` reads. -/
structure HttpResponse where
  StatusCode : Nat
  Status : String
  deriving DecidableEq, Repr

/-- What the network calls of `ConnectTunnel` return: `net.ListenUDP` on the given local
address, `quic.Dial`, `connectip.Dial` with the URI template, and what closing the HTTP/3
transport will return. -/
structure NetEnv where
  ListenUDP : Bytes → Except Error UDPConn
  quicDial : UDPConn → UDPAddr → QuicConfig → Except Error QuicConn
  connectipDial : QuicConn → String → Except Error (IPConn × HttpResponse)
  h3CloseErr : Option Error

/-- The five results of `ConnectTunnel`; `none` is a nil pointer or a nil error. -/
structure ConnectResult where
  udpConn : Option UDPConn
  tr : Option H3Transport
  ipConn : Option IPConn
  rsp : Option HttpResponse
  err : Option Error
  deriving DecidableEq, Repr

/-- The text the dial error is compared with in `ConnectTunnel`. -/
def accessDeniedMsg : String := "CRYPTO_ERROR 0x131 (remote): tls: access denied"

/-- The text of the error returned for an access-denied failure. -/
def loginFailedMsg : String :=
  "login failed! Please double-check if your tls key and cert is enrolled in the Cloudflare Access service"

/-- The local address `ConnectTunnel` listens on: the IPv6 wildcard when the endpoint is
not an IPv4 address, else the IPv4 wildcard. -/
def listenAddr (endpoint : UDPAddr) : Bytes :=
  if To4 endpoint.IP = none then IPv6zero else IPv4zero

/-- Embeds `ConnectTunnel`. -/
def ConnectTunnel (env : NetEnv) (_tlsConfig : TlsConfig) (quicConfig : QuicConfig)
    (connectUri : String) (endpoint : UDPAddr) : ConnectResult :=
  match env.ListenUDP (listenAddr endpoint) with
  | .error err => ⟨none, none, none, none, some err⟩
  | .ok udpConn =>
    match env.quicDial udpConn endpoint quicConfig with
    | .error err => ⟨some udpConn, none, none, none, some err⟩
    | .ok conn =>
      let tr : H3Transport :=
        { EnableDatagrams := true
          AdditionalSettings := [(0x276, 1)]
          DisableCompression := true
          closeErr := env.h3CloseErr }
      match env.connectipDial conn connectUri with
      | .error err =>
        if err.msg = accessDeniedMsg then
          ⟨some udpConn, none, none, none, some (.other loginFailedMsg)⟩
        else
          ⟨some udpConn, none, none, none,
            some (.other ("failed to dial connect-ip: " ++ err.msg))⟩
      | .ok (ipConn, rsp) => ⟨some udpConn, some tr, some ipConn, some rsp, none⟩

/-- Embeds `masquePacketConn`. -/
structure masquePacketConn where
  Conn : Option IPConn
  udpConn : Option UDPConn
  h3tr : Option H3Transport
  deriving DecidableEq, Repr

/-- The `Close` calls made on the resources of a tunnel, in program order. -/
inductive TunnelEvent where
  | closeIP (c : IPConn)
  | closeH3 (tr : H3Transport)
  | closeUDP (u : UDPConn)
  | panicked
  deriving DecidableEq, Repr

/-- The result of `StartTunnel`: the `PacketConn`, the error, and the `Close` calls made. -/
structure StartTunnelResult where
  conn : Option masquePacketConn
  err : Option Error
  trace : List TunnelEvent
  deriving DecidableEq, Repr

/-- Embeds `Transport.StartTunnel`. -/
def Transport.StartTunnel (t : Transport) (env : NetEnv) : StartTunnelResult :=
  let c := ConnectTunnel env t.tlsConfig t.quicConfig ConnectURI t.endpoint
  match c.err with
  | some err =>
    ⟨none, some err, (c.udpConn.map TunnelEvent.closeUDP).toList⟩
  | none =>
    match c.rsp with
    | none => ⟨none, none, [TunnelEvent.panicked]⟩
    | some rsp =>
      if rsp.StatusCode ≠ 200 then
        ⟨none, some (.other ("tunnel connection failed with status: " ++ rsp.Status)),
          (c.ipConn.map TunnelEvent.closeIP).toList ++ (c.tr.map TunnelEvent.closeH3).toList
            ++ (c.udpConn.map TunnelEvent.closeUDP).toList⟩
      else
        ⟨some { Conn := c.ipConn, udpConn := c.udpConn, h3tr := c.tr }, none, []⟩

/-- The first non-nil error of a list of `Close` results. -/
def firstErr : List (Option Error) → Option Error
  | [] => none
  | some e :: _ => some e
  | none :: rest => firstErr rest

/-- Embeds `masquePacketConn.Close`: the returned error and the `Close` calls made.  The
HTTP/3 transport is not closed here. -/
def masquePacketConn.Close (c : masquePacketConn) : Option Error × List TunnelEvent :=
  (firstErr ((c.Conn.map fun x => x.closeErr).toList ++ (c.udpConn.map fun u => u.closeErr).toList),
    (c.Conn.map TunnelEvent.closeIP).toList ++ (c.udpConn.map TunnelEvent.closeUDP).toList)

/-- The effects of `n` calls of `masquePacketConn.Close` one after the other. -/
def masquePacketConn.CloseN : Nat → masquePacketConn → List TunnelEvent
  | 0, _ => []
  | n + 1, c => c.Close.2 ++ masquePacketConn.CloseN n c

/-- A Go byte slice: its elements (`len` of them) and its capacity. -/
structure Slice where
  data : Bytes
  cap : Nat
  deriving DecidableEq, Repr

/-- Embeds `NetBuffer`; `buf` lists the slices the `sync.Pool` currently holds. -/
structure NetBuffer where
  capacity : Int
  buf : List Slice
  deriving DecidableEq, Repr

/-- Embeds `NewNetBuffer`; `none` is the panic for a capacity that is not positive. -/
def NewNetBuffer (capacity : Int) : Option NetBuffer :=
  if capacity ≤ 0 then none else some { capacity := capacity, buf := [] }

/-- The pool's `New` function: `make([]byte, capacity)`. -/
def NetBuffer.New (n : NetBuffer) : Slice :=
  { data := List.replicate n.capacity.toNat 0, cap := n.capacity.toNat }

/-- Embeds `NetBuffer.Get`.  `pick` is the choice `sync.Pool.Get` makes: the index of the
held slice it hands out, or `none` when it finds none and calls `New`. -/
def NetBuffer.Get (n : NetBuffer) (pick : Option Nat) : Slice × NetBuffer :=
  match pick with
  | none => (n.New, n)
  | some i =>
    match n.buf.get? i with
    | none => (n.New, n)
    | some s => (s, { n with buf := n.buf.eraseIdx i })

/-- Embeds `NetBuffer.Put`. -/
def NetBuffer.Put (n : NetBuffer) (buf : Slice) : NetBuffer :=
  if (buf.cap : Int) ≠ n.capacity then n
  else { n with buf := buf :: n.buf }

/-- One step on a pool: a `Get` with the pool's choice, a `Put`, or the pool dropping a
held slice, as `sync.Pool` may at any time. -/
inductive PoolOp where
  | get (pick : Option Nat)
  | put (buf : Slice)
  | drop (i : Nat)
  deriving DecidableEq, Repr

/-- The pool after a sequence of steps, and the slices its `Get` calls returned, in
order. -/
def NetBuffer.run (n : NetBuffer) : List PoolOp → NetBuffer × List Slice
  | [] => (n, [])
  | .get pick :: ops =>
    let g := n.Get pick
    let r := NetBuffer.run g.2 ops
    (r.1, g.1 :: r.2)
  | .put buf :: ops => NetBuffer.run (n.Put buf) ops
  | .drop i :: ops => NetBuffer.run { n with buf := n.buf.eraseIdx i } ops

/-- A profile for concrete evaluations: both keys present, the endpoint given. -/
def sampleApp (endpointV4 : String) : AppConfig :=
  { GetEcPrivateKey := .ok { PublicKey := ⟨256, 3, 4⟩, D := 11 }
    GetEcEndpointPublicKey := .ok samplePin
    EndpointV4 := endpointV4 }

/-- Library behaviour for concrete evaluations: certificate creation succeeds and
`net.ParseIP` knows the one address `162.159.198.1`; every other text, the empty one
included, is not an address. -/
def sampleLibraries : Libs :=
  { CreateCertificate := fun _ => .ok [48, 130]
    ParseIP := fun s =>
      if s = "162.159.198.1" then
        some [0, 0, 0, 0, 0, 0, 0, 0, 0, 0, 255, 255, 162, 159, 198, 1]
      else none }

/-- A TLS configuration for concrete evaluations, as `PrepareTlsConfig` builds it. -/
def sampleTlsConfig : TlsConfig :=
  { Certificates := [{ Chain := [[48, 130]], PrivateKey := { PublicKey := ⟨256, 3, 4⟩, D := 11 } }]
    ServerName := ConnectSNI
    NextProtos := [NextProtoH3]
    InsecureSkipVerify := true
    VerifyPeerCertificate := fun parseCertificate rawCerts verifiedChains =>
      VerifyPeerCertificate parseCertificate samplePin rawCerts verifiedChains }

/-- A transport for concrete evaluations whose endpoint address is nil. -/
def sampleTransport : Transport :=
  { tag := "masque-default"
    tlsConfig := sampleTlsConfig
    quicConfig := DefaultQuicConfig (30 * Second) 1242
    endpoint := { IP := none, Port := 443 } }

/-- A network for concrete evaluations in which the tunnel dial is answered with the
given status code. -/
def sampleNet (status : Nat) : NetEnv :=
  { ListenUDP := fun _ => .ok { name := "udp", closeErr := none }
    quicDial := fun _ _ _ => .ok { id := 1 }
    connectipDial := fun _ _ =>
      .ok ({ name := "connect-ip", closeErr := none }, { StatusCode := status, Status := "" })
    h3CloseErr := none }

/-- A network for concrete evaluations in which `connectip.Dial` fails with the given
error. -/
def sampleNetDialError (e : Error) : NetEnv :=
  { ListenUDP := fun _ => .ok { name := "udp", closeErr := none }
    quicDial := fun _ _ _ => .ok { id := 1 }
    connectipDial := fun _ _ => .error e
    h3CloseErr := none }

end Masque

/-! ## internal/inbound/tun/tun.go -/

namespace Tun

open Router Config

/-- A non-nil `core.PacketConn` (also `stack.Stack`): its identity and what its `Close`
returns.  Reads and writes are driven by scripts given to `pipe`. -/
structure PacketConn where
  name : String
  closeErr : Option Error
  deriving DecidableEq, Repr

/-- Which log line `pipe` prints on a failed read or write. -/
inductive LogLine where
  | pipeClosed
  | ioError (e : Error)
  deriving DecidableEq, Repr

/-- Observable effects of the TUN inbound, in program order. -/
inductive Event where
  | cancel
  | close (c : PacketConn)
  | readPacket (src : PacketConn) (res : Except Error Bytes)
  | writePacket (dst : PacketConn) (pkt : Bytes) (res : Option Error)
  | log (l : LogLine)
  | newTransport
  | startTunnel
  | newNativeDevice (ifaceName : String) (mtu : Nat)
  | createNetTUN (mtu : Nat)
  | setDefaultDialer (d : Dialer)
  | goPipe (dst src : PacketConn)

/-- Embeds `TunInbound`.  `router` holds the pointee of the Go pointer (`none` is a nil pointer);
`ctxDone` says whether the `ctx`/`cancel` pair has been cancelled. -/
structure TunInbound where
  tag : String
  config : InboundOptions
  router : Option DefaultRouter
  ctxDone : Bool
  localStack : Option PacketConn
  remoteConn : Option PacketConn

/-- Embeds `tun.New`. -/
def New (router : Option DefaultRouter) (options : InboundOptions) : TunInbound :=
  { tag := options.Tag, config := options, router := router, ctxDone := false,
    localStack := none, remoteConn := none }

/-- The first non-nil error of a list of `Close` results. -/
def firstError : List (Option Error) → Option Error
  | [] => none
  | some e :: _ => some e
  | none :: rest => firstError rest

/-- Embeds `TunInbound.Close`: returned error, inbound afterwards, effects. -/
def TunInbound.Close (t : TunInbound) : Option Error × TunInbound × List Event :=
  let t1 := { t with ctxDone := true }
  let (errs1, ev1) :=
    match t.localStack with
    | some ls => ([ls.closeErr], [Event.close ls])
    | none => ([], [])
  let (errs2, ev2) :=
    match t.remoteConn with
    | some rc => (errs1 ++ [rc.closeErr], ev1 ++ [Event.close rc])
    | none => (errs1, ev1)
  (firstError errs2, t1, Event.cancel :: ev2)

/-- The `core.Transport` handed back by `masque.NewTransport`. -/
structure Transport where
  tag : String
  deriving DecidableEq, Repr

/-- The `tun.Device` created by `netstack.CreateNetTUN`. -/
structure TunDevice where
  name : String
  closeErr : Option Error
  deriving DecidableEq, Repr

/-- Embeds `stack.NewNetstackAdapter`: the adapter's `Close` is the device's. -/
def NewNetstackAdapter (dev : TunDevice) : PacketConn :=
  { name := dev.name, closeErr := dev.closeErr }

/-- What the calls made by `Start` outside this file return: `masque.NewTransport(tag, nil)`,
`transport.StartTunnel(ctx)`, `newNativeDevice(ifaceName, mtu)` and
`netstack.CreateNetTUN(nil, nil, mtu)`. -/
structure StartEnv where
  NewTransport : String → Except Error Transport
  StartTunnel : Transport → Except Error PacketConn
  newNativeDevice : String → Nat → Except Error PacketConn
  CreateNetTUN : Nat → Except Error (TunDevice × Dialer)

/-- The local variable `stackType` of `Start`: `"netstack"`, replaced by the option
`stack` when that is a string. -/
def TunInbound.stackType (t : TunInbound) : String :=
  match t.config.getString "stack" with
  | some opts => opts
  | none => "netstack"

/-- Step 4 of `Start`: spawn the two pump directions and report success. -/
def TunInbound.startPipes (t : TunInbound) (ls rc : PacketConn) (evs : List Event) :
    Option Error × TunInbound × List Event :=
  (none, t, evs ++ [Event.goPipe ls rc, Event.goPipe rc ls])

/-- Embeds `TunInbound.Start`: returned error, inbound afterwards, effects. -/
def TunInbound.Start (t : TunInbound) (env : StartEnv) :
    Option Error × TunInbound × List Event :=
  match env.NewTransport "masque-default" with
  | .error e =>
    (some (.wrap "failed to create default masque transport: " e), t, [Event.newTransport])
  | .ok transport =>
    match env.StartTunnel transport with
    | .error e =>
      (some (.wrap "failed to start remote tunnel: " e), { t with remoteConn := none },
        [Event.newTransport, Event.startTunnel])
    | .ok rc =>
      let t1 := { t with remoteConn := some rc }
      let mtu := 1280
      if t.stackType = "system" then
        match env.newNativeDevice t.tag mtu with
        | .error e =>
          (some (.wrap "failed to create local stack: " e), { t1 with localStack := none },
            [Event.newTransport, Event.startTunnel, Event.newNativeDevice t.tag mtu])
        | .ok ls =>
          TunInbound.startPipes { t1 with localStack := some ls } ls rc
            [Event.newTransport, Event.startTunnel, Event.newNativeDevice t.tag mtu]
      else if t.stackType = "netstack" then
        match env.CreateNetTUN mtu with
        | .error e =>
          (some (.wrap "failed to create netstack device: " e), t1,
            [Event.newTransport, Event.startTunnel, Event.createNetTUN mtu])
        | .ok (tunDev, tunNet) =>
          let ls := NewNetstackAdapter tunDev
          let t2 := { t1 with localStack := some ls }
          match t2.router with
          | some r =>
            TunInbound.startPipes { t2 with router := some (r.SetDefaultDialer (some tunNet)) }
              ls rc
              [Event.newTransport, Event.startTunnel, Event.createNetTUN mtu,
                Event.setDefaultDialer tunNet]
          | none =>
            TunInbound.startPipes t2 ls rc
              [Event.newTransport, Event.startTunnel, Event.createNetTUN mtu]
      else
        (some (.other ("unknown stack type: " ++ t.stackType)), t1,
          [Event.newTransport, Event.startTunnel])

/-- The dialers passed to `SetDefaultDialer` in a trace. -/
def published : List Event → List Dialer
  | [] => []
  | .setDefaultDialer d :: rest => d :: published rest
  | _ :: rest => published rest

/-- An environment for concrete evaluations in which every outside call succeeds. -/
def sampleEnv : StartEnv :=
  { NewTransport := fun tag => .ok { tag := tag }
    StartTunnel := fun _ => .ok { name := "masque", closeErr := none }
    newNativeDevice := fun ifaceName _ => .ok { name := ifaceName, closeErr := none }
    CreateNetTUN := fun _ => .ok ({ name := "netstack", closeErr := none }, { id := 7 }) }

/-- An inbound fresh from `New` with no `stack` option, attached to a fresh router. -/
def sampleFresh : TunInbound :=
  New (some Router.New) { Typ := "tun", Tag := "tun-in", Options := [] }

/-- An inbound fresh from `New` configured with `stack: "system"`. -/
def sampleSystem : TunInbound :=
  New (some Router.New)
    { Typ := "tun", Tag := "tun0", Options := [("stack", Value.str "system")] }

/-- An inbound fresh from `New` configured with `mtu: 1400`. -/
def sampleMtu : TunInbound :=
  New (some Router.New) { Typ := "tun", Tag := "tun-in", Options := [("mtu", Value.number 1400)] }

/-- An inbound fresh from `New` configured with an unknown stack type. -/
def sampleUnknownStack : TunInbound :=
  New (some Router.New)
    { Typ := "tun", Tag := "tun-in", Options := [("stack", Value.str "gvisor")] }

/-- An environment for concrete evaluations in which the tunnel opens and creating the
netstack device fails. -/
def sampleEnvNoNetstack : StartEnv :=
  { NewTransport := fun tag => .ok { tag := tag }
    StartTunnel := fun _ => .ok { name := "masque", closeErr := none }
    newNativeDevice := fun _ _ => .error (.other "native tun is not supported on this platform")
    CreateNetTUN := fun _ => .error (.other "out of memory") }

/-- How a run of `pipe` ends: it returned, it is blocked for ever in `ReadPacket`, or
`buf[:n]` panicked because the source reported more bytes than the buffer holds. -/
inductive PipeStatus where
  | returned
  | blocked
  | panicked
  deriving DecidableEq, Repr

structure PipeResult where
  status : PipeStatus
  t : TunInbound
  trace : List Event

/-- The log line chosen by `errors.Is(err, io.EOF) || errors.Is(err, context.Canceled)`. -/
def logFor (e : Error) : LogLine :=
  if e.isEOFOrCanceled then .pipeClosed else .ioError e

/-- The `for` loop of `pipe`.  `reads` is what successive `src.ReadPacket` calls yield
(a packet copied to the front of `buf`, or an error); when it is exhausted the next read
never returns.  `done i` says whether `t.ctx.Done()` is found closed by the `select` of
iteration `i` because of a cancellation from outside this goroutine; `writeRes i pkt`
is what the `dst.WritePacket(pkt)` of iteration `i` returns. -/
def TunInbound.pipeLoop (t : TunInbound) (dst src : PacketConn) (done : Nat → Bool)
    (writeRes : Nat → Bytes → Option Error) :
    List (Except Error Bytes) → Nat → Bytes → PipeResult
  | [], i, _ =>
    if t.ctxDone || done i then ⟨.returned, t, []⟩ else ⟨.blocked, t, []⟩
  | .error e :: _, i, _ =>
    if t.ctxDone || done i then ⟨.returned, t, []⟩ else
      let c := t.Close
      ⟨.returned, c.2.1, Event.readPacket src (.error e) :: Event.log (logFor e) :: c.2.2⟩
  | .ok pkt :: rest, i, buf =>
    if t.ctxDone || done i then ⟨.returned, t, []⟩ else
      let n := pkt.length
      let buf1 := pkt.take buf.length ++ buf.drop n
      if buf.length < n then ⟨.panicked, t, [Event.readPacket src (.ok pkt)]⟩ else
        match writeRes i (buf1.take n) with
        | some e =>
          let c := t.Close
          ⟨.returned, c.2.1,
            Event.readPacket src (.ok pkt) :: Event.writePacket dst (buf1.take n) (some e)
              :: Event.log (logFor e) :: c.2.2⟩
        | none =>
          let r := TunInbound.pipeLoop t dst src done writeRes rest (i + 1) buf1
          { r with trace :=
              Event.readPacket src (.ok pkt) :: Event.writePacket dst (buf1.take n) none
                :: r.trace }

/-- Embeds `TunInbound.pipe`: allocate the 1500-byte buffer and run the loop. -/
def TunInbound.pipe (t : TunInbound) (dst src : PacketConn) (done : Nat → Bool)
    (writeRes : Nat → Bytes → Option Error) (reads : List (Except Error Bytes)) :
    PipeResult :=
  t.pipeLoop dst src done writeRes reads 0 (List.replicate 1500 0)

/-- The arguments of the `WritePacket` calls in a trace, with their receivers. -/
def writeCalls : List Event → List (PacketConn × Bytes)
  | [] => []
  | .writePacket dst pkt _ :: rest => (dst, pkt) :: writeCalls rest
  | _ :: rest => writeCalls rest

/-- A `ReadPacket` or `WritePacket` call that returned an error. -/
def Event.isIOFailure : Event → Bool
  | .readPacket _ (.error _) => true
  | .writePacket _ _ (some _) => true
  | _ => false

/-- A `ReadPacket` or `WritePacket` call. -/
def Event.isPacketCall : Event → Bool
  | .readPacket _ _ => true
  | .writePacket _ _ _ => true
  | _ => false

/-- The receivers of the `Close` calls on packet connections in a trace, in order. -/
def closeCalls : List Event → List PacketConn
  | [] => []
  | .close c :: rest => c :: closeCalls rest
  | _ :: rest => closeCalls rest

/-- The inbound and the effects after `n` calls of `TunInbound.Close` one after the other
(from the supervisor or from a pump direction). -/
def TunInbound.CloseN : Nat → TunInbound → TunInbound × List Event
  | 0, t => (t, [])
  | n + 1, t =>
    let c := t.Close
    let r := TunInbound.CloseN n c.2.1
    (r.1, c.2.2 ++ r.2)

/-- The MTU values handed to `newNativeDevice` and `netstack.CreateNetTUN` in a trace. -/
def mtusUsed : List Event → List Nat
  | [] => []
  | .newNativeDevice _ mtu :: rest => mtu :: mtusUsed rest
  | .createNetTUN mtu :: rest => mtu :: mtusUsed rest
  | _ :: rest => mtusUsed rest

/-- A netstack adapter for concrete evaluations. -/
def sampleLocal : PacketConn := { name := "netstack", closeErr := none }

/-- A MASQUE tunnel for concrete evaluations. -/
def sampleRemote : PacketConn := { name := "masque", closeErr := none }

/-- A started inbound for concrete evaluations: both connections set, a router holding
the dialer with id 1. -/
def sampleStarted : TunInbound :=
  { tag := "tun-in", config := { Typ := "tun", Tag := "tun-in", Options := [] },
    router := some { netDialer := some ⟨1⟩ }, ctxDone := false,
    localStack := some sampleLocal, remoteConn := some sampleRemote }

end Tun

/-! ## internal/inbound/mixed/mixed.go -/

namespace Mixed

open Router Config

/-- What one `Read` on the accepted TCP socket will deliver: some bytes or an error. -/
inductive SockRead where
  | data (bs : Bytes)
  | fail (e : Error)
  deriving DecidableEq, Repr

/-- The accepted `net.Conn`: the deliveries still to come, oldest first.  When none is
left the peer has closed and `Read` reports `io.EOF`. -/
structure NetConn where
  incoming : List SockRead
  deriving DecidableEq, Repr

/-- Embeds `conn.Read(p)` with `len(p) = max`: bytes read, error, socket afterwards.  A delivery
longer than `p` is handed out in pieces. -/
def NetConn.Read (c : NetConn) (max : Nat) : (Bytes × Option Error) × NetConn :=
  match c.incoming with
  | [] => (([], some Error.EOF), c)
  | .fail e :: rest => (([], some e), { incoming := rest })
  | .data bs :: rest =>
    if bs.length ≤ max then ((bs, none), { incoming := rest })
    else ((bs.take max, none), { incoming := .data (bs.drop max) :: rest })

/-- Embeds `bufio.Reader` over the socket: the bytes buffered and not yet consumed
(`buf[r:w]`) and the pending error `err`. -/
structure Reader where
  buf : Bytes
  err : Option Error
  deriving DecidableEq, Repr

/-- The size of the buffer `bufio.NewReader` allocates. -/
def defaultBufSize : Nat := 4096

/-- Embeds `bufio.maxConsecutiveEmptyReads`. -/
def maxConsecutiveEmptyReads : Nat := 100

/-- Embeds `bufio.NewReader`. -/
def NewReader : Reader := { buf := [], err := none }

/-- The retry loop of `bufio.Reader.fill`: read from the socket into the free part of the
buffer, at most `i` times while nothing arrives. -/
def Reader.fillLoop : Nat → Reader → NetConn → Reader × NetConn
  | 0, b, c => ({ b with err := some (.other "multiple Read calls return no data or error") }, c)
  | i + 1, b, c =>
    let r := c.Read (defaultBufSize - b.buf.length)
    let b1 : Reader := { b with buf := b.buf ++ r.1.1 }
    match r.1.2 with
    | some e => ({ b1 with err := some e }, r.2)
    | none => if 0 < r.1.1.length then (b1, r.2) else Reader.fillLoop i b1 r.2

/-- Embeds `bufio.Reader.fill`. -/
def Reader.fill (b : Reader) (c : NetConn) : Reader × NetConn :=
  Reader.fillLoop maxConsecutiveEmptyReads b c

/-- Embeds `bufio.Reader.readErr`: hand out the pending error and clear it. -/
def Reader.readErr (b : Reader) : Option Error × Reader :=
  (b.err, { b with err := none })

/-- The `for` loop of `bufio.Reader.Peek`.  Every `fill` buffers a byte or sets `err`, so
`n` rounds are enough for `Peek(n)`. -/
def Reader.peekLoop : Nat → Nat → Reader → NetConn → Reader × NetConn
  | 0, _, b, c => (b, c)
  | k + 1, n, b, c =>
    if b.buf.length < n ∧ b.buf.length < defaultBufSize ∧ b.err = none then
      let r := b.fill c
      Reader.peekLoop k n r.1 r.2
    else (b, c)

/-- Embeds `bufio.Reader.Peek(n)`: the bytes, the error, reader and socket afterwards. -/
def Reader.Peek (b : Reader) (n : Nat) (c : NetConn) :
    (Bytes × Option Error) × Reader × NetConn :=
  let r := Reader.peekLoop n n b c
  if defaultBufSize < n then ((r.1.buf, some (.other "bufio: buffer full")), r.1, r.2)
  else if r.1.buf.length < n then
    let e := r.1.readErr
    ((r.1.buf, some (e.1.getD (.other "bufio: buffer full"))), e.2, r.2)
  else ((r.1.buf.take n, none), r.1, r.2)

/-- Embeds `bufio.Reader.Read(p)` with `len(p) = len`. -/
def Reader.Read (b : Reader) (len : Nat) (c : NetConn) :
    (Bytes × Option Error) × Reader × NetConn :=
  if len = 0 then
    if 0 < b.buf.length then (([], none), b, c)
    else (([], b.readErr.1), b.readErr.2, c)
  else if b.buf = [] then
    match b.err with
    | some e => (([], some e), { b with err := none }, c)
    | none =>
      if defaultBufSize ≤ len then
        let r := c.Read len
        (r.1, b, r.2)
      else
        let r := c.Read defaultBufSize
        if r.1.1 = [] then (([], r.1.2), b, r.2)
        else ((r.1.1.take len, none), { buf := r.1.1.drop len, err := r.1.2 }, r.2)
  else ((b.buf.take len, none), { b with buf := b.buf.drop len }, c)

/-- Embeds `peekingConn`: the socket together with the buffered reader its `Read` goes through. -/
structure peekingConn where
  Conn : NetConn
  reader : Reader
  deriving DecidableEq, Repr

/-- Embeds `peekingConn.Read`. -/
def peekingConn.Read (c : peekingConn) (len : Nat) : (Bytes × Option Error) × peekingConn :=
  let r := c.reader.Read len c.Conn
  (r.1, { Conn := r.2.2, reader := r.2.1 })

/-- The connection object a protocol server is handed: the bare socket, or the
`peekingConn` wrapper. -/
inductive ServedConn where
  | raw (conn : NetConn)
  | peeking (c : peekingConn)
  deriving DecidableEq, Repr

/-- The first `Read(p)` a protocol server performs on the connection it was handed. -/
def ServedConn.Read (s : ServedConn) (len : Nat) : Bytes × Option Error :=
  match s with
  | .raw conn => (conn.Read len).1
  | .peeking c => (c.Read len).1

/-- Embeds `http.Request`, as far as the handlers read it. -/
structure Request where
  Method : String
  Host : String
  URL : String
  deriving DecidableEq, Repr

/-- Embeds `http.Response`, as far as the forward proxy reads it. -/
structure Response where
  StatusCode : Nat
  Header : List (String × List String)
  Body : Bytes
  deriving DecidableEq, Repr

/-- The two protocol handlers of the mixed inbound. -/
inductive Handler where
  | socks5
  | http
  deriving DecidableEq, Repr

/-- Log lines of the mixed inbound. -/
inductive ConnLogLine where
  | peekFailed (e : Error)
  | detectedSocks5
  | detectedHttp
  | cannotHandleSocks5 (e : Error)
  | socks5NegotiationError (e : Error)
  deriving DecidableEq, Repr

/-- Observable effects of handling one connection, in program order.  `enter h` marks
the entry into `handleSocks5` or `handleHttp`. -/
inductive ConnEvent where
  | log (l : ConnLogLine)
  | enter (h : Handler)
  | connClose
  | serveConn (d : Dialer) (conn : ServedConn)
  | httpServe (conn : ServedConn)
  | httpError (msg : String) (code : Nat)
  | dial (d : Dialer) (network address : String)
  | roundTrip (d : Dialer) (r : Request)
  | headerAdd (k v : String)
  | writeHeader (code : Nat)
  | hijack
  | goCopy
  | copyBody (body : Bytes)
  | panicked
  deriving DecidableEq, Repr

/-- What the libraries called by the handlers return: the SOCKS5 server's `ServeConn`, the
requests `http.Serve` parses from the connection and passes to the handler, the dialer's
`DialContext`, the transport's `RoundTrip`, and the response writer's hijacking. -/
structure Env where
  ServeConn : Dialer → ServedConn → Option Error
  requests : ServedConn → List Request
  DialContext : Dialer → String → String → Option Error
  RoundTrip : Dialer → Request → Except Error Response
  isHijacker : Bool
  Hijack : Option Error

/-- Embeds `net.Listener` as returned by `net.Listen`: the address it is bound to. -/
structure Listener where
  addr : String
  deriving DecidableEq, Repr

/-- Embeds `MixedInbound`; `router` holds the pointee of the Go pointer. -/
structure MixedInbound where
  tag : String
  config : InboundOptions
  router : Option DefaultRouter
  listener : Option Listener := none

/-- Embeds `m.router.GetDefaultDialer()`; on a nil router the mutex access panics (`none`). -/
def MixedInbound.getDialer (m : MixedInbound) : Option (Except Error Dialer) :=
  match m.router with
  | none => none
  | some r => some r.GetDefaultDialer.1

/-- Embeds `http.StatusServiceUnavailable`. -/
def StatusServiceUnavailable : Nat := 503

/-- Embeds `http.StatusBadGateway`. -/
def StatusBadGateway : Nat := 502

/-- Embeds `http.StatusInternalServerError`. -/
def StatusInternalServerError : Nat := 500

/-- Embeds `http.StatusOK`. -/
def StatusOK : Nat := 200

/-- Embeds `MixedInbound.handleSocks5`.  The server is given `conn`; `reader` is received and
not used. -/
def MixedInbound.handleSocks5 (m : MixedInbound) (env : Env) (conn : NetConn)
    (_reader : Reader) : List ConnEvent :=
  ConnEvent.enter .socks5 ::
  match m.getDialer with
  | none => [ConnEvent.panicked]
  | some (.error err) => [ConnEvent.log (.cannotHandleSocks5 err)]
  | some (.ok dialer) =>
    ConnEvent.serveConn dialer (.raw conn) ::
    match env.ServeConn dialer (.raw conn) with
    | none => []
    | some err =>
      if !err.isEOF then [ConnEvent.log (.socks5NegotiationError err)] else []

/-- Embeds `MixedInbound.handleHttpsConnect`. -/
def MixedInbound.handleHttpsConnect (m : MixedInbound) (env : Env) (r : Request) :
    List ConnEvent :=
  match m.getDialer with
  | none => [ConnEvent.panicked]
  | some (.error err) => [ConnEvent.httpError err.msg StatusServiceUnavailable]
  | some (.ok dialer) =>
    ConnEvent.dial dialer "tcp" r.Host ::
    match env.DialContext dialer "tcp" r.Host with
    | some err => [ConnEvent.httpError err.msg StatusServiceUnavailable]
    | none =>
      ConnEvent.writeHeader StatusOK ::
      if !env.isHijacker then
        [ConnEvent.httpError "Hijacking not supported" StatusInternalServerError]
      else
        ConnEvent.hijack ::
        match env.Hijack with
        | some err => [ConnEvent.httpError err.msg StatusInternalServerError]
        | none => [ConnEvent.goCopy, ConnEvent.goCopy]

/-- The header-copy loop of `handleHttpProxy`, in the order the map iteration yields
the names. -/
def copyHeader (h : List (String × List String)) : List ConnEvent :=
  h.flatMap fun kv => kv.2.map fun v => ConnEvent.headerAdd kv.1 v

/-- Embeds `MixedInbound.handleHttpProxy`. -/
def MixedInbound.handleHttpProxy (m : MixedInbound) (env : Env) (r : Request) :
    List ConnEvent :=
  match m.getDialer with
  | none => [ConnEvent.panicked]
  | some (.error err) => [ConnEvent.httpError err.msg StatusServiceUnavailable]
  | some (.ok dialer) =>
    ConnEvent.roundTrip dialer r ::
    match env.RoundTrip dialer r with
    | .error err => [ConnEvent.httpError err.msg StatusBadGateway]
    | .ok resp =>
      copyHeader resp.Header ++ [ConnEvent.writeHeader resp.StatusCode, ConnEvent.copyBody resp.Body]

/-- The `http.HandlerFunc` built in `handleHttp`. -/
def MixedInbound.handler (m : MixedInbound) (env : Env) (r : Request) : List ConnEvent :=
  if r.Method = "CONNECT" then m.handleHttpsConnect env r else m.handleHttpProxy env r

/-- Embeds `MixedInbound.handleHttp`: serve the `peekingConn` with the handler. -/
def MixedInbound.handleHttp (m : MixedInbound) (env : Env) (conn : NetConn)
    (reader : Reader) : List ConnEvent :=
  let httpConn : peekingConn := { Conn := conn, reader := reader }
  ConnEvent.enter .http :: ConnEvent.httpServe (.peeking httpConn) ::
    (env.requests (.peeking httpConn)).flatMap (m.handler env)

/-- Embeds `MixedInbound.handleConnection`; the deferred `conn.Close()` ends the trace. -/
def MixedInbound.handleConnection (m : MixedInbound) (env : Env) (conn : NetConn) :
    List ConnEvent :=
  let p := NewReader.Peek 1 conn
  match p.1.2 with
  | some err => [ConnEvent.log (.peekFailed err), ConnEvent.connClose]
  | none =>
    match p.1.1 with
    | [] => [ConnEvent.panicked, ConnEvent.connClose]
    | firstByte :: _ =>
      if firstByte = 5 then
        ConnEvent.log .detectedSocks5 :: m.handleSocks5 env p.2.2 p.2.1 ++ [ConnEvent.connClose]
      else
        ConnEvent.log .detectedHttp :: m.handleHttp env p.2.2 p.2.1 ++ [ConnEvent.connClose]

/-- The handlers entered in a trace, in order. -/
def handlersRun : List ConnEvent → List Handler
  | [] => []
  | .enter h :: rest => h :: handlersRun rest
  | _ :: rest => handlersRun rest

/-- The calls that reach the network through a dialer, or run the SOCKS5 server. -/
def ConnEvent.usesDialer : ConnEvent → Bool
  | .serveConn _ _ => true
  | .dial _ _ _ => true
  | .roundTrip _ _ => true
  | _ => false

/-- Embeds `http.Header`: the values stored under each name, one entry per name. -/
abbrev Header := List (String × List String)

/-- The map access `h[key]`: the values stored under `key`, nil when there are none. -/
def Header.get : Header → String → List String
  | [], _ => []
  | (k, vs) :: rest, key => if k = key then vs else Header.get rest key

/-- The map update `h[key] = append(h[key], value)` performed by `Header.Add` once the
name is in canonical form. -/
def Header.append : Header → String → String → Header
  | [], key, value => [(key, [value])]
  | (k, vs) :: rest, key, value =>
    if k = key then (k, vs ++ [value]) :: rest
    else (k, vs) :: Header.append rest key value

/-- Embeds `Header.Add`; `canon` stands for `textproto.CanonicalMIMEHeaderKey`. -/
def Header.Add (canon : String → String) (h : Header) (key value : String) : Header :=
  Header.append h (canon key) value

/-- The header map of the response writer at its first `WriteHeader` (or at the end of
the trace when there is none), starting from `h`: the headers the response carries. -/
def headerSent (canon : String → String) : List ConnEvent → Header → Header
  | [], h => h
  | .headerAdd k v :: rest, h => headerSent canon rest (Header.Add canon h k v)
  | .writeHeader _ :: _, h => h
  | _ :: rest, h => headerSent canon rest h

/-- The status code of the first `WriteHeader` in a trace: the status the response
carries. -/
def statusSent : List ConnEvent → Option Nat
  | [] => none
  | .writeHeader code :: _ => some code
  | _ :: rest => statusSent rest

/-- The header map after adding, name by name, every value of `es` to `h`. -/
def addAll (canon : String → String) (es : List (String × List String)) (h : Header) :
    Header :=
  es.foldl (fun acc kv => kv.2.foldl (fun a v => Header.Add canon a kv.1 v) acc) h

/-- A canonicalisation for concrete evaluations that leaves every name as it is. -/
def sampleCanon (k : String) : String := k

/-- An environment for concrete evaluations in which the upstream answers 200 with two
cookies and a content type. -/
def sampleUpstream : Env :=
  { ServeConn := fun _ _ => none
    requests := fun _ => []
    DialContext := fun _ _ _ => none
    RoundTrip := fun _ _ =>
      .ok { StatusCode := 200
            Header := [("Set-Cookie", ["a=1", "b=2"]), ("Content-Type", ["text/html"])]
            Body := [111, 107] }
    isHijacker := true
    Hijack := none }

/-- Embeds `mixed.New`. -/
def New (router : Option DefaultRouter) (options : InboundOptions) : MixedInbound :=
  { tag := options.Tag, config := options, router := router }

/-- The conversion `int(x)` of a `float64` holding the value `x`: the fraction is
discarded (truncation towards zero); a value outside the 64-bit range gives the smallest
`int`, as on amd64. -/
def intOfFloat (x : Rat) : Int :=
  let n := x.num.tdiv (x.den : Int)
  if -9223372036854775808 ≤ n ∧ n ≤ 9223372036854775807 then n else -9223372036854775808

/-- Effects of `MixedInbound.Start`. -/
inductive StartEvent where
  | listen (network addr : String)
  | goAcceptLoop
  deriving DecidableEq, Repr

/-- Embeds `MixedInbound.Start`: returned error, inbound afterwards, effects.  `listen`
stands for `net.Listen`. -/
def MixedInbound.Start (m : MixedInbound) (listen : String → String → Except Error Listener) :
    Option Error × MixedInbound × List StartEvent :=
  let listenAddr0 := (m.config.getString "listen").getD ""
  let listenAddr := if listenAddr0 = "" then "0.0.0.0" else listenAddr0
  let listenPort0 := (m.config.getNumber "listen_port").getD 0
  let listenPort : Rat := if listenPort0 = 0 then 1080 else listenPort0
  let addr := listenAddr ++ ":" ++ toString (intOfFloat listenPort)
  match listen "tcp" addr with
  | .error err =>
    (some (.wrap ("failed to listen on " ++ addr ++ ": ") err), m, [StartEvent.listen "tcp" addr])
  | .ok listener =>
    (none, { m with listener := some listener },
      [StartEvent.listen "tcp" addr, StartEvent.goAcceptLoop])

/-- The host the claim names for the listener: the string option `listen`, or `0.0.0.0`
when that option is absent, empty or not a string. -/
def statedListen (o : InboundOptions) : String :=
  match o.Options.lookup "listen" with
  | some (.str s) => if s = "" then "0.0.0.0" else s
  | _ => "0.0.0.0"

/-- The port the claim names for the listener: the numeric option `listen_port` with its
fraction discarded, or 1080 when that option is absent, zero or not a number. -/
def statedListenPort (o : InboundOptions) : Int :=
  match o.Options.lookup "listen_port" with
  | some (.number x) => if x = 0 then 1080 else x.num.tdiv (x.den : Int)
  | _ => 1080

/-- Embeds `oneShotListener`; `conn` may be nil. -/
structure oneShotListener where
  conn : Option peekingConn
  deriving DecidableEq, Repr

/-- Embeds `oneShotListener.Accept`.  The method has a value receiver, so `l` is the
method's own copy of the listener: returned are the two results and that copy after the
assignment `l.conn = nil`, which is dropped when the method returns. -/
def oneShotListener.Accept (l : oneShotListener) :
    (Option peekingConn × Option Error) × oneShotListener :=
  match l.conn with
  | none => ((none, some Error.EOF), l)
  | some c => ((some c, none), { conn := none })

/-- The results of `n` successive `Accept` calls made on one listener value, as by the
accept loop of `http.Serve`: every call receives a fresh copy of the caller's value. -/
def oneShotListener.AcceptN (l : oneShotListener) : Nat → List (Option peekingConn × Option Error)
  | 0 => []
  | n + 1 => l.Accept.1 :: oneShotListener.AcceptN l n

/-- A `net.Listen` for concrete evaluations that always succeeds. -/
def sampleListen (_network addr : String) : Except Error Listener := .ok { addr := addr }

/-- A mixed inbound for concrete evaluations configured with `listen` 127.0.0.1 and
`listen_port` 8080.5 (the rational 16161/2). -/
def sampleListening : MixedInbound :=
  New none
    { Typ := "mixed", Tag := "mixed-in",
      Options :=
        [("listen", Value.str "127.0.0.1"),
         ("listen_port",
           Value.number { num := 16161, den := 2, den_nz := by decide, reduced := by decide })] }

/-- A mixed inbound whose router holds no dialer. -/
def sampleNoDialer : MixedInbound :=
  { tag := "mixed-in", config := { Typ := "mixed", Tag := "mixed-in", Options := [] },
    router := some Router.New }

/-- A mixed inbound whose router holds the dialer with id 7. -/
def sampleWithDialer : MixedInbound :=
  { tag := "mixed-in", config := { Typ := "mixed", Tag := "mixed-in", Options := [] },
    router := some { netDialer := some { id := 7 } } }

/-- An environment for concrete evaluations: the SOCKS5 server reports end of stream, no
HTTP request is parsed, dials and round trips fail. -/
def sampleLibs : Env :=
  { ServeConn := fun _ _ => some Error.EOF
    requests := fun _ => []
    DialContext := fun _ _ _ => some (Error.other "connection refused")
    RoundTrip := fun _ _ => .error (Error.other "connection refused")
    isHijacker := true
    Hijack := none }

end Mixed

/-! ## internal/utils.go -/

namespace Internal

/-- A warning printed by `CheckIfname`. -/
inductive Warning where
  | tooLong
  | nonASCII
  deriving DecidableEq, Repr

/-- The state of the scan in `CheckIfname`: the two flags. -/
structure Scan where
  invalidChar : Bool
  hasWhitespace : Bool
  deriving DecidableEq, Repr

/-- The test `r == '/' || r == ' ' || strings.ContainsRune("\t\n\v\f\r", r)` on the code
point `r`: slash 47, space 32, tab 9, newline 10, vertical tab 11, form feed 12, carriage
return 13. -/
def isSlashOrSpace (r : Nat) : Bool :=
  r == 47 || r == 32 || r == 9 || r == 10 || r == 11 || r == 12 || r == 13

/-- The `for _, r := range name` loop of `CheckIfname` over the code points of the name:
a code point above 127 sets `invalidChar` and leaves the loop, a slash or whitespace sets
`hasWhitespace` and leaves the loop. -/
def scanName : List Nat → Scan
  | [] => { invalidChar := false, hasWhitespace := false }
  | r :: rest =>
    if 127 < r then { invalidChar := true, hasWhitespace := false }
    else if isSlashOrSpace r then { invalidChar := false, hasWhitespace := true }
    else scanName rest

/-- Embeds `CheckIfname`: the returned error and the warnings logged. -/
def CheckIfname (name : String) : Option Error × List Warning :=
  if name = "" then (some (.other "interface name cannot be empty"), [])
  else
    let w1 := if 16 ≤ name.utf8ByteSize then [Warning.tooLong] else []
    let sc := scanName (name.data.map Char.toNat)
    let w2 := if sc.invalidChar then [Warning.nonASCII] else []
    if sc.hasWhitespace then
      (some (.other "interface name contains invalid character: '/' or whitespace"), w1 ++ w2)
    else (none, w1 ++ w2)

/-- Embeds `PortMapping`. -/
structure PortMapping where
  BindAddress : String
  LocalPort : Int
  RemoteIP : String
  RemotePort : Int
  deriving DecidableEq, Repr

/-- Cutting a character list at every occurrence of `sep`. -/
def splitChars (sep : Char) : List Char → List (List Char)
  | [] => [[]]
  | c :: cs =>
    if c = sep then [] :: splitChars sep cs
    else
      match splitChars sep cs with
      | [] => [[c]]
      | p :: ps => (c :: p) :: ps

/-- Embeds `strings.Split(s, sep)` for a one-character separator. -/
def Split (s : String) (sep : Char) : List String :=
  (splitChars sep s.data).map String.mk

/-- The value of a non-empty string of decimal digits. -/
def digitsValue : List Char → Nat → Option Nat
  | [], acc => some acc
  | c :: cs, acc => if c.isDigit then digitsValue cs (acc * 10 + (c.toNat - 48)) else none

/-- Embeds `strconv.Atoi`: an optional sign followed by decimal digits, within the range
of a 64-bit `int`; `none` is an error. -/
def Atoi (s : String) : Option Int :=
  let body : Bool × List Char :=
    match s.data with
    | c :: cs => if c = Char.ofNat 45 then (true, cs) else if c = Char.ofNat 43 then (false, cs)
                 else (false, c :: cs)
    | [] => (false, [])
  match body.2 with
  | [] => none
  | ds =>
    match digitsValue ds 0 with
    | none => none
    | some v =>
      let n : Int := if body.1 then -(v : Int) else (v : Int)
      if -9223372036854775808 ≤ n ∧ n ≤ 9223372036854775807 then some n else none

/-- Embeds `strings.HasPrefix(s, "[")`. -/
def hasOpenBracketPrefix (s : String) : Bool :=
  s.data.head? == some (Char.ofNat 91)

/-- Embeds `strings.Contains(s, "]")`. -/
def containsCloseBracket (s : String) : Bool :=
  s.data.contains (Char.ofNat 93)

/-- Embeds `strings.HasSuffix(s, "]")`. -/
def hasCloseBracketSuffix (s : String) : Bool :=
  s.data.getLast? == some (Char.ofNat 93)

/-- Embeds `strings.Trim(s, "[]")`: leading and trailing brackets removed. -/
def trimBrackets (s : String) : String :=
  let isB : Char → Bool := fun c => c = Char.ofNat 91 || c = Char.ofNat 93
  String.mk ((s.data.dropWhile isB).reverse.dropWhile isB).reverse

/-- Embeds `isValidHostname`. -/
def isValidHostname (hostname : String) : Bool :=
  hostname = "localhost" || hostname.data.contains (Char.ofNat 46)

/-- The resolver calls behind `parsePortMapping`: whether `net.ParseIP` returns an
address, and `net.ResolveTCPAddr("tcp", addr+":0")` followed by `IP.String()`. -/
structure Resolver where
  ParseIP : String → Bool
  ResolveTCPAddr : String → Except Error String

/-- Embeds `resolveBindAddress`. -/
def resolveBindAddress (lib : Resolver) (addr : String) : Except Error String :=
  lib.ResolveTCPAddr addr

/-- The text of the format error. -/
def formatErrMsg : String :=
  "invalid port mapping format (expected format: [bind_address:]local_port:remote_host:remote_port)"

/-- The first `if`/`else if` chain of `parsePortMapping`: the bind address and the three
remaining fields, or `none` for the format error. -/
def bindAndRest (parts : List String) : Option (String × List String) :=
  match parts with
  | [] => none
  | p0 :: rest =>
    if 4 ≤ parts.length && hasOpenBracketPrefix p0 && containsCloseBracket p0 then
      some (p0, rest)
    else if parts.length = 3 then some ("localhost", parts)
    else if parts.length = 4 then some (p0, rest)
    else none

/-- Whether the first field starts with `[` and contains `]`. -/
def bracketedFirst (parts : List String) : Bool :=
  match parts with
  | [] => false
  | p0 :: _ => hasOpenBracketPrefix p0 && containsCloseBracket p0

/-- The part of `parsePortMapping` after the format check, on the bind address and the
remaining fields `parts[0]`, `parts[1]`, `parts[2]`. -/
def parseFields (lib : Resolver) (bindAddress : String) (parts : List String) :
    Except Error (String × Int × String × Int) :=
  match parts with
  | f0 :: f1 :: f2 :: _ =>
    match Atoi f0 with
    | none => .error (.other "invalid local port")
    | some localPort =>
      if localPort ≤ 0 ∨ 65535 < localPort then .error (.other "invalid local port")
      else
        let remoteHost := f1
        if !lib.ParseIP remoteHost && !isValidHostname remoteHost then
          .error (.other "invalid remote hostname/IP")
        else
          match Atoi f2 with
          | none => .error (.other "invalid remote port")
          | some remotePort =>
            if remotePort ≤ 0 ∨ 65535 < remotePort then .error (.other "invalid remote port")
            else
              let b1 := if hasOpenBracketPrefix bindAddress && hasCloseBracketSuffix bindAddress
                        then trimBrackets bindAddress else bindAddress
              let b2 := if b1 = "*" then "0.0.0.0" else b1
              match resolveBindAddress lib b2 with
              | .error err => .error (.other ("invalid local address: " ++ err.msg))
              | .ok b3 =>
                match resolveBindAddress lib remoteHost with
                | .error err => .error (.other ("invalid remote address: " ++ err.msg))
                | .ok r => .ok (b3, localPort, r, remotePort)
  | _ => .error (.other "index out of range")

/-- Embeds `parsePortMapping`. -/
def parsePortMapping (lib : Resolver) (port : String) :
    Except Error (String × Int × String × Int) :=
  match bindAndRest (Split port (Char.ofNat 58)) with
  | none => .error (.other formatErrMsg)
  | some (bindAddress, parts) => parseFields lib bindAddress parts

/-- Embeds `ParsePortMapping`. -/
def ParsePortMapping (lib : Resolver) (port : String) : Except Error PortMapping :=
  match parsePortMapping lib port with
  | .error err => .error err
  | .ok (bindAddress, localPort, remoteHost, remotePort) =>
    .ok { BindAddress := bindAddress, LocalPort := localPort, RemoteIP := remoteHost,
          RemotePort := remotePort }

/-- A resolver for concrete evaluations: the two dotted addresses `127.0.0.1` and
`10.0.0.1` are IP addresses and resolve to themselves, `localhost` resolves to
`127.0.0.1`, nothing else resolves. -/
def sampleResolver : Resolver :=
  { ParseIP := fun s => s = "127.0.0.1" || s = "10.0.0.1"
    ResolveTCPAddr := fun s =>
      if s = "127.0.0.1" then .ok "127.0.0.1"
      else if s = "10.0.0.1" then .ok "10.0.0.1"
      else if s = "localhost" then .ok "127.0.0.1"
      else .error (.other "no such host") }

end Internal

/-! ## cmd/run.go -/

namespace Cmd

open Router Config

/-- Embeds `config.Config`, as far as the supervisor reads it. -/
structure Config where
  Inbounds : List InboundOptions

/-- A `core.Inbound` built by the supervisor: a TUN inbound or a mixed inbound. -/
inductive Inbound where
  | tun (t : Tun.TunInbound)
  | mixed (m : Mixed.MixedInbound)

/-- The options an inbound was built from. -/
def Inbound.config : Inbound → InboundOptions
  | .tun t => t.config
  | .mixed m => m.config

/-- Embeds `Inbound.Tag`. -/
def Inbound.Tag : Inbound → String
  | .tun t => t.tag
  | .mixed m => m.tag

/-- Effects of the supervisor, in program order. -/
inductive RunEvent where
  | warnUnknown (typ : String)
  | construct (o : InboundOptions)
  | start (o : InboundOptions)
  | fatal (tag : String) (err : Error)
  | logRunning (n : Nat)

/-- The loop "2. Create Inbounds": the slice `inbounds` and the effects.  Both
constructors return a nil error, so the fatal branch after the `switch` is never taken. -/
def createInbounds (r : DefaultRouter) : List InboundOptions → List Inbound × List RunEvent
  | [] => ([], [])
  | inboundOptions :: rest =>
    let next := createInbounds r rest
    if inboundOptions.Typ = "tun" then
      (Inbound.tun (Tun.New (some r) inboundOptions) :: next.1,
        RunEvent.construct inboundOptions :: next.2)
    else if inboundOptions.Typ = "mixed" then
      (Inbound.mixed (Mixed.New (some r) inboundOptions) :: next.1,
        RunEvent.construct inboundOptions :: next.2)
    else (next.1, RunEvent.warnUnknown inboundOptions.Typ :: next.2)

/-- The loop "3. Start Inbounds": whether every `Start` succeeded, and the effects;
`log.Fatalf` ends the process at the first failure.  `start` gives what `inbound.Start()`
returns. -/
def startInbounds (start : Inbound → Option Error) : List Inbound → Bool × List RunEvent
  | [] => (true, [])
  | inbound :: rest =>
    match start inbound with
    | some err => (false, [RunEvent.start inbound.config, RunEvent.fatal inbound.Tag err])
    | none =>
      let next := startInbounds start rest
      (next.1, RunEvent.start inbound.config :: next.2)

/-- Embeds the body of `runCmd.Run` from the creation of the router to the log line
reporting the running count. -/
def Run (start : Inbound → Option Error) (newConfig : Config) : List RunEvent :=
  let r := Router.New
  let created := createInbounds r newConfig.Inbounds
  let started := startInbounds start created.1
  if started.1 then created.2 ++ started.2 ++ [RunEvent.logRunning created.1.length]
  else created.2 ++ started.2

/-- The declarations the supervisor builds an inbound for, in trace order. -/
def constructed : List RunEvent → List InboundOptions
  | [] => []
  | .construct o :: rest => o :: constructed rest
  | _ :: rest => constructed rest

/-- The declarations whose inbound the supervisor calls `Start` on, in trace order. -/
def startedOnes : List RunEvent → List InboundOptions
  | [] => []
  | .start o :: rest => o :: startedOnes rest
  | _ :: rest => startedOnes rest

/-- The counts reported by the "inbounds running" log line. -/
def reportedCounts : List RunEvent → List Nat
  | [] => []
  | .logRunning n :: rest => n :: reportedCounts rest
  | _ :: rest => reportedCounts rest

/-- The declarations of type `tun` or `mixed`, in declaration order. -/
def knownInbounds (decls : List InboundOptions) : List InboundOptions :=
  decls.filter fun o => o.Typ = "tun" || o.Typ = "mixed"

/-- A `Start` for concrete evaluations that fails for every TUN inbound and succeeds for
every mixed inbound. -/
def sampleStartTunFails : Inbound → Option Error
  | .tun _ => some (Error.other "failed to start remote tunnel")
  | .mixed _ => none

/-- A configuration for concrete evaluations: a TUN inbound, an inbound of an unknown
type, and a mixed inbound. -/
def sampleConfig : Config :=
  { Inbounds :=
      [{ Typ := "tun", Tag := "tun-in", Options := [] },
       { Typ := "wireguard", Tag := "wg-in", Options := [] },
       { Typ := "mixed", Tag := "mixed-in", Options := [] }] }

end Cmd

/-! ## Theorems: masque.go -/

namespace Masque

theorem EcdsaPublicKey.Equal_iff (a b : EcdsaPublicKey) : a.Equal b = true ↔ a = b := by
  cases a; cases b
  simp [EcdsaPublicKey.Equal, and_assoc]
  tauto

/-- C1: for a non-empty list of presented certificates whose leaf parses to a certificate
with ECDSA key `K`, the verifier returns `nil` when `K` is the pinned key and the
certificate-invalid error (reason 10, "remote endpoint has a different public key than
what we trust ...") when it is not; the certificates after the leaf, and the verified
chains, do not influence the result. -/
theorem verifyPeerCertificate_pins_leaf
    (parseCertificate : Bytes → Except String Certificate) (pin K : EcdsaPublicKey)
    (leaf : Bytes) (cert : Certificate)
    (hparse : parseCertificate leaf = .ok cert) (hkey : cert.PublicKey = .ecdsa K) :
    ∀ (rest : List Bytes) (chains : List (List Certificate)),
      VerifyPeerCertificate parseCertificate pin (leaf :: rest) chains
        = if K = pin then none
          else some (.CertificateInvalidError cert 10
            "remote endpoint has a different public key than what we trust in config.json") := by
  intro rest chains
  by_cases h : K = pin
  · subst h
    have hE : K.Equal K = true := (EcdsaPublicKey.Equal_iff K K).2 rfl
    simp [VerifyPeerCertificate, hparse, hkey, hE]
  · have hE : K.Equal pin = false := by
      cases hb : K.Equal pin
      · rfl
      · exact absurd ((EcdsaPublicKey.Equal_iff K pin).1 hb) h
    simp [VerifyPeerCertificate, hparse, hkey, hE, h, pinDetail]

/-- Witness for C1: a leaf carrying a key different from the pin, followed by junk. -/
theorem verifyPeerCertificate_pins_leaf_witness :
    (sampleParse [0, 256, 7, 8]
        = Except.ok { Raw := [0, 256, 7, 8], PublicKey := PublicKey.ecdsa ⟨256, 7, 8⟩ }
      ∧ ({ Raw := [0, 256, 7, 8], PublicKey := PublicKey.ecdsa ⟨256, 7, 8⟩ } : Certificate).PublicKey
          = PublicKey.ecdsa ⟨256, 7, 8⟩)
    ∧ VerifyPeerCertificate sampleParse samplePin ([0, 256, 7, 8] :: [[1, 2], []]) []
      = if (⟨256, 7, 8⟩ : EcdsaPublicKey) = samplePin then none
        else some (.CertificateInvalidError
          { Raw := [0, 256, 7, 8], PublicKey := .ecdsa ⟨256, 7, 8⟩ } 10
          "remote endpoint has a different public key than what we trust in config.json") :=
  ⟨⟨rfl, rfl⟩,
    verifyPeerCertificate_pins_leaf sampleParse samplePin ⟨256, 7, 8⟩ [0, 256, 7, 8]
      { Raw := [0, 256, 7, 8], PublicKey := .ecdsa ⟨256, 7, 8⟩ } rfl rfl [[1, 2], []] []⟩

/-- C2 (refuted as stated): with no presented certificate the verifier at a concrete pin
returns `nil`, not an error. -/
theorem verifyPeerCertificate_empty_counterexample :
    ¬ (VerifyPeerCertificate sampleParse samplePin [] []).isSome := by
  decide

/-- C2 (amended): for an empty list of presented certificates the verifier returns `nil`
whatever the pin, the parser and the verified chains are; it does not itself require a
certificate to be presented. -/
theorem verifyPeerCertificate_empty_accepts
    (parseCertificate : Bytes → Except String Certificate) (pin : EcdsaPublicKey)
    (chains : List (List Certificate)) :
    VerifyPeerCertificate parseCertificate pin [] chains = none := by
  rfl

end Masque

/-! ## Theorems: router.go -/

namespace Router

theorem getDefaultDialer_frame (r : DefaultRouter) : r.GetDefaultDialer.2 = r := by
  unfold DefaultRouter.GetDefaultDialer
  cases r.netDialer <;> rfl

theorem calls_netDialer (cs : List Call) : ∀ r : DefaultRouter,
    (r.calls cs).netDialer = ((setArgs cs).getLast?).getD r.netDialer := by
  induction cs with
  | nil => intro r; rfl
  | cons c cs ih =>
    intro r
    have hstep : r.calls (c :: cs) = (r.call c).calls cs := rfl
    rw [hstep, ih]
    cases c with
    | get => simp [DefaultRouter.call, getDefaultDialer_frame, setArgs]
    | set d =>
      simp only [DefaultRouter.call, DefaultRouter.SetDefaultDialer, setArgs]
      cases h : (setArgs cs).getLast? with
      | none =>
        have hnil : setArgs cs = [] := List.getLast?_eq_none_iff.mp h
        simp [hnil]
      | some x =>
        have hne : setArgs cs ≠ [] := by
          intro hnil; rw [hnil] at h; simp at h
        obtain ⟨y, ys, hy⟩ := List.exists_cons_of_ne_nil hne
        rw [hy] at h ⊢
        rw [List.getLast?_cons_cons, h]
        rfl

/-- C7: after any sequence of `SetDefaultDialer` and `GetDefaultDialer` calls on a router
fresh from `New`, `GetDefaultDialer` fails when no `SetDefaultDialer` call has been made
or the most recent one stored nil, and otherwise returns exactly the dialer of the most
recent `SetDefaultDialer` call; and `GetDefaultDialer` leaves the router as it was. -/
theorem getDefaultDialer_last_writer_wins (cs : List Call) :
    (New.calls cs).GetDefaultDialer.1
        = (match (setArgs cs).getLast? with
           | some (some d) => Except.ok d
           | _ => Except.error (Error.other noDialerMsg))
      ∧ (New.calls cs).GetDefaultDialer.2 = New.calls cs := by
  refine ⟨?_, getDefaultDialer_frame _⟩
  have h := calls_netDialer cs New
  unfold DefaultRouter.GetDefaultDialer
  rw [h]
  cases hl : (setArgs cs).getLast? with
  | none => rfl
  | some x => cases x <;> rfl

end Router

/-! ## Theorems: tun.go, the packet pump -/

namespace Tun

open Router Config

theorem copy_front (pkt buf : Bytes) (h : pkt.length ≤ buf.length) :
    (pkt.take buf.length ++ buf.drop pkt.length).take pkt.length = pkt := by
  rw [List.take_of_length_le h]
  simp

theorem copy_length (pkt buf : Bytes) (h : pkt.length ≤ buf.length) :
    (pkt.take buf.length ++ buf.drop pkt.length).length = buf.length := by
  rw [List.take_of_length_le h]
  simp
  omega

theorem pipeLoop_forwards (t : TunInbound) (dst src : PacketConn) (done : Nat → Bool)
    (writeRes : Nat → Bytes → Option Error) (e : Error) (rest : List (Except Error Bytes))
    (hctx : t.ctxDone = false) (hdone : ∀ i, done i = false)
    (hw : ∀ i pkt, writeRes i pkt = none) :
    ∀ (P : List Bytes) (i : Nat) (buf : Bytes), buf.length = 1500 →
      (∀ p ∈ P, p.length ≤ 1500) →
      (t.pipeLoop dst src done writeRes (P.map Except.ok ++ Except.error e :: rest) i buf).status
          = PipeStatus.returned
        ∧ writeCalls
            (t.pipeLoop dst src done writeRes (P.map Except.ok ++ Except.error e :: rest) i buf).trace
          = P.map (fun p => (dst, p)) := by
  intro P
  induction P with
  | nil =>
    intro i buf _ _
    simp [TunInbound.pipeLoop, hctx, hdone, writeCalls, TunInbound.Close]
    cases t.localStack <;> cases t.remoteConn <;> simp [writeCalls]
  | cons p P ih =>
    intro i buf hbuf hP
    have hp : p.length ≤ buf.length := by
      rw [hbuf]; exact hP p (List.mem_cons_self _ _)
    have hlt : ¬ buf.length < p.length := by omega
    have hP2 : ∀ q ∈ P, q.length ≤ 1500 := fun q hq => hP q (List.mem_cons_of_mem _ hq)
    have hnew : (p.take buf.length ++ buf.drop p.length).length = 1500 := by
      rw [copy_length p buf hp, hbuf]
    obtain ⟨h1, h2⟩ := ih (i + 1) (p.take buf.length ++ buf.drop p.length) hnew hP2
    simp only [List.map_cons, List.cons_append, TunInbound.pipeLoop, hctx, hdone, hw,
      Bool.or_self, Bool.false_eq_true, if_false, hlt, writeCalls, copy_front p buf hp]
    exact ⟨h1, congrArg (List.cons (dst, p)) h2⟩

/-- C3: one pump direction `pipe(dst, src)`.  If `src` yields `k` packets `P1..Pk`, each
of at most 1500 bytes, and then a read error, every write to `dst` succeeds and the
cancellation token is never found triggered, then `pipe` returns and has issued exactly
`k` `WritePacket` calls, all on `dst`, whose arguments are `P1..Pk` unchanged and in that
order. -/
theorem pipe_forwards_packets_in_order (t : TunInbound) (dst src : PacketConn)
    (done : Nat → Bool) (writeRes : Nat → Bytes → Option Error) (P : List Bytes) (e : Error)
    (rest : List (Except Error Bytes))
    (hctx : t.ctxDone = false) (hdone : ∀ i, done i = false)
    (hw : ∀ i pkt, writeRes i pkt = none) (hlen : ∀ p ∈ P, p.length ≤ 1500) :
    (t.pipe dst src done writeRes (P.map Except.ok ++ Except.error e :: rest)).status
        = PipeStatus.returned
      ∧ writeCalls (t.pipe dst src done writeRes (P.map Except.ok ++ Except.error e :: rest)).trace
        = P.map (fun p => (dst, p))
      ∧ (writeCalls
          (t.pipe dst src done writeRes (P.map Except.ok ++ Except.error e :: rest)).trace).length
        = P.length := by
  have h := pipeLoop_forwards t dst src done writeRes e rest hctx hdone hw P 0
    (List.replicate 1500 0) (List.length_replicate 1500 0) hlen
  refine ⟨h.1, h.2, ?_⟩
  unfold TunInbound.pipe
  rw [h.2]
  simp

/-- Witness for C3: two packets, then end of stream. -/
theorem pipe_forwards_packets_in_order_witness :
    (sampleStarted.ctxDone = false ∧ (∀ p ∈ [[69, 0, 1], [96]], List.length p ≤ 1500))
      ∧ (sampleStarted.pipe sampleLocal sampleRemote (fun _ => false) (fun _ _ => none)
            ([[69, 0, 1], [96]].map Except.ok ++ Except.error Error.EOF :: [])).status
          = PipeStatus.returned
      ∧ writeCalls (sampleStarted.pipe sampleLocal sampleRemote (fun _ => false)
            (fun _ _ => none)
            ([[69, 0, 1], [96]].map Except.ok ++ Except.error Error.EOF :: [])).trace
          = [[69, 0, 1], [96]].map (fun p => (sampleLocal, p))
      ∧ (writeCalls (sampleStarted.pipe sampleLocal sampleRemote (fun _ => false)
            (fun _ _ => none)
            ([[69, 0, 1], [96]].map Except.ok ++ Except.error Error.EOF :: [])).trace).length
          = [[69, 0, 1], [96]].length :=
  ⟨⟨rfl, by decide⟩,
    pipe_forwards_packets_in_order sampleStarted sampleLocal sampleRemote (fun _ => false)
      (fun _ _ => none) [[69, 0, 1], [96]] Error.EOF [] rfl (fun _ => rfl) (fun _ _ => rfl)
      (by decide)⟩

theorem close_events_noFailure (t : TunInbound) :
    ∀ x ∈ t.Close.2.2, x.isIOFailure = false := by
  intro x hx
  unfold TunInbound.Close at hx
  cases hl : t.localStack <;> cases hr : t.remoteConn <;>
    simp only [hl, hr, List.nil_append, List.singleton_append, List.mem_cons,
      List.mem_singleton, List.not_mem_nil, or_false] at hx
  · subst hx; rfl
  · rcases hx with h | h <;> subst h <;> rfl
  · rcases hx with h | h <;> subst h <;> rfl
  · rcases hx with h | h | h <;> subst h <;> rfl

theorem pipeLoop_shape (t : TunInbound) (dst src : PacketConn) (done : Nat → Bool)
    (writeRes : Nat → Bytes → Option Error) :
    ∀ (reads : List (Except Error Bytes)) (i : Nat) (buf : Bytes),
      (∀ x ∈ (t.pipeLoop dst src done writeRes reads i buf).trace, x.isIOFailure = false)
      ∨ ∃ pre ev l, (∀ x ∈ pre, x.isIOFailure = false) ∧ ev.isIOFailure = true
          ∧ (t.pipeLoop dst src done writeRes reads i buf).trace
              = pre ++ ev :: Event.log l :: t.Close.2.2
          ∧ (t.pipeLoop dst src done writeRes reads i buf).status = PipeStatus.returned
          ∧ (t.pipeLoop dst src done writeRes reads i buf).t = t.Close.2.1 := by
  intro reads
  induction reads with
  | nil =>
    intro i buf
    left
    unfold TunInbound.pipeLoop
    split <;> simp
  | cons r rest ih =>
    intro i buf
    cases r with
    | error e =>
      unfold TunInbound.pipeLoop
      by_cases hd : (t.ctxDone || done i) = true
      · left; simp [hd]
      · right
        refine ⟨[], Event.readPacket src (.error e), logFor e, by simp, rfl, ?_, ?_, ?_⟩ <;>
          simp [hd]
    | ok pkt =>
      unfold TunInbound.pipeLoop
      by_cases hd : (t.ctxDone || done i) = true
      · left; simp [hd]
      · by_cases hn : buf.length < pkt.length
        · left; simp [hd, hn, Event.isIOFailure]
        · cases hwr : writeRes i ((pkt.take buf.length ++ buf.drop pkt.length).take pkt.length) with
          | some e =>
            right
            refine ⟨[Event.readPacket src (.ok pkt)],
              Event.writePacket dst ((pkt.take buf.length ++ buf.drop pkt.length).take pkt.length)
                (some e), logFor e, by simp [Event.isIOFailure], rfl, ?_, ?_, ?_⟩ <;>
              simp [hd, hn, hwr]
          | none =>
            rcases ih (i + 1) (pkt.take buf.length ++ buf.drop pkt.length) with h | h
            · left
              simp only [hd, hn, hwr, if_false, Bool.false_eq_true]
              intro x hx
              simp only [List.mem_cons] at hx
              rcases hx with hx | hx | hx
              · subst hx; rfl
              · subst hx; rfl
              · exact h x hx
            · right
              obtain ⟨pre, ev, l, hpre, hev, htr, hst, ht⟩ := h
              refine ⟨Event.readPacket src (.ok pkt)
                :: Event.writePacket dst
                    ((pkt.take buf.length ++ buf.drop pkt.length).take pkt.length) none :: pre,
                ev, l, ?_, hev, ?_, ?_, ?_⟩
              · intro x hx
                simp only [List.mem_cons] at hx
                rcases hx with hx | hx | hx
                · subst hx; rfl
                · subst hx; rfl
                · exact hpre x hx
              · simp [hd, hn, hwr, htr]
              · simp [hd, hn, hwr, hst]
              · simp [hd, hn, hwr, ht]

theorem split_unique {α : Type} (P : α → Bool) :
    ∀ (l1 l2 r1 r2 : List α) (a b : α), l1 ++ a :: r1 = l2 ++ b :: r2 →
      P a = true → P b = true → (∀ x ∈ l2, P x = false) → (∀ x ∈ r2, P x = false) →
      l1 = l2 ∧ a = b ∧ r1 = r2 := by
  intro l1
  induction l1 with
  | nil =>
    intro l2 r1 r2 a b h ha hb hl2 hr2
    cases l2 with
    | nil =>
      simp only [List.nil_append, List.cons.injEq] at h
      exact ⟨rfl, h.1, h.2⟩
    | cons c l2 =>
      simp only [List.nil_append, List.cons_append, List.cons.injEq] at h
      have := hl2 c (List.mem_cons_self _ _)
      rw [← h.1, ha] at this
      cases this
  | cons c l1 ih =>
    intro l2 r1 r2 a b h ha hb hl2 hr2
    cases l2 with
    | nil =>
      simp only [List.nil_append, List.cons_append, List.cons.injEq] at h
      have hmem : a ∈ r2 := by rw [← h.2]; simp
      have := hr2 a hmem
      rw [ha] at this
      cases this
    | cons d l2 =>
      simp only [List.cons_append, List.cons.injEq] at h
      obtain ⟨h1, h2, h3⟩ := ih l2 r1 r2 a b h.2 ha hb
        (fun x hx => hl2 x (List.mem_cons_of_mem _ hx)) hr2
      exact ⟨by rw [h.1, h1], h2, h3⟩

/-- C4: in one pump direction of a started inbound (local stack and remote connection
both set), a `ReadPacket` or `WritePacket` call returning an error of any kind is the
first and only failing call; after it `pipe` performs no further read or write, logs one
line, runs the inbound's `Close` (context cancelled, local stack closed, remote
`PacketConn` closed, in that order) and returns.  This holds in particular when the
error is neither end-of-stream nor cancellation. -/
theorem pipe_stops_and_closes_on_first_error (t : TunInbound) (dst src ls rc : PacketConn)
    (done : Nat → Bool) (writeRes : Nat → Bytes → Option Error)
    (reads : List (Except Error Bytes)) (pre post : List Event) (ev : Event)
    (hls : t.localStack = some ls) (hrc : t.remoteConn = some rc)
    (hsplit : (t.pipe dst src done writeRes reads).trace = pre ++ ev :: post)
    (hev : ev.isIOFailure = true) :
    (∀ x ∈ pre, x.isIOFailure = false)
      ∧ (∀ x ∈ post, x.isPacketCall = false)
      ∧ (∃ l, post = [Event.log l, Event.cancel, Event.close ls, Event.close rc])
      ∧ (t.pipe dst src done writeRes reads).status = PipeStatus.returned
      ∧ (t.pipe dst src done writeRes reads).t = t.Close.2.1
      ∧ (t.pipe dst src done writeRes reads).t.ctxDone = true := by
  unfold TunInbound.pipe at hsplit ⊢
  have hclose : t.Close.2.2 = [Event.cancel, Event.close ls, Event.close rc] := by
    simp [TunInbound.Close, hls, hrc]
  rcases pipeLoop_shape t dst src done writeRes reads 0 (List.replicate 1500 0) with h | h
  · have := h ev (by rw [hsplit]; simp)
    rw [hev] at this
    cases this
  · obtain ⟨pre2, ev2, l, hpre, hev2, htr, hst, ht⟩ := h
    have hpost2 : ∀ x ∈ Event.log l :: t.Close.2.2, x.isIOFailure = false := by
      intro x hx
      simp only [List.mem_cons] at hx
      rcases hx with hx | hx
      · subst hx; rfl
      · exact close_events_noFailure t x hx
    rw [htr] at hsplit
    obtain ⟨h1, _, h3⟩ := split_unique Event.isIOFailure pre pre2 post
      (Event.log l :: t.Close.2.2) ev ev2 hsplit.symm hev hev2 hpre hpost2
    subst h1
    refine ⟨hpre, ?_, ⟨l, by rw [h3, hclose]⟩, hst, ht, ?_⟩
    · intro x hx
      rw [h3, hclose] at hx
      simp only [List.mem_cons, List.mem_singleton, List.not_mem_nil, or_false] at hx
      rcases hx with hx | hx | hx | hx <;> subst hx <;> rfl
    · rw [ht]; rfl

theorem sample_failing_loop (buf : Bytes) (hbuf : buf.length = 1500) :
    (sampleStarted.pipeLoop sampleRemote sampleLocal (fun _ => false)
        (fun i _ => if i = 1 then some (Error.other "timeout") else none)
        [Except.ok [69], Except.ok [70], Except.ok [71]] 0 buf).trace
      = [Event.readPacket sampleLocal (Except.ok [69]),
          Event.writePacket sampleRemote [69] none,
          Event.readPacket sampleLocal (Except.ok [70])]
        ++ Event.writePacket sampleRemote [70] (some (Error.other "timeout"))
          :: [Event.log (LogLine.ioError (Error.other "timeout")), Event.cancel,
              Event.close sampleLocal, Event.close sampleRemote] := by
  simp [TunInbound.pipeLoop, sampleStarted, TunInbound.Close, logFor,
    Error.isEOFOrCanceled, hbuf, firstError]

theorem sample_failing_run :
    (sampleStarted.pipe sampleRemote sampleLocal (fun _ => false)
        (fun i _ => if i = 1 then some (Error.other "timeout") else none)
        [Except.ok [69], Except.ok [70], Except.ok [71]]).trace
      = [Event.readPacket sampleLocal (Except.ok [69]),
          Event.writePacket sampleRemote [69] none,
          Event.readPacket sampleLocal (Except.ok [70])]
        ++ Event.writePacket sampleRemote [70] (some (Error.other "timeout"))
          :: [Event.log (LogLine.ioError (Error.other "timeout")), Event.cancel,
              Event.close sampleLocal, Event.close sampleRemote] :=
  sample_failing_loop (List.replicate 1500 0) (List.length_replicate 1500 0)

/-- Witness for C4: one packet is forwarded, then the write of the second one fails with
an error that is neither end-of-stream nor cancellation. -/
theorem pipe_stops_and_closes_on_first_error_witness :
    (sampleStarted.localStack = some sampleLocal ∧ sampleStarted.remoteConn = some sampleRemote
      ∧ (Event.writePacket sampleRemote [70] (some (Error.other "timeout"))).isIOFailure = true)
    ∧ ((∀ x ∈ [Event.readPacket sampleLocal (Except.ok [69]),
              Event.writePacket sampleRemote [69] none,
              Event.readPacket sampleLocal (Except.ok [70])], x.isIOFailure = false)
      ∧ (∀ x ∈ [Event.log (LogLine.ioError (Error.other "timeout")), Event.cancel,
                  Event.close sampleLocal, Event.close sampleRemote], x.isPacketCall = false)
      ∧ (∃ l, [Event.log (LogLine.ioError (Error.other "timeout")), Event.cancel,
                  Event.close sampleLocal, Event.close sampleRemote]
                = [Event.log l, Event.cancel, Event.close sampleLocal, Event.close sampleRemote])
      ∧ (sampleStarted.pipe sampleRemote sampleLocal (fun _ => false)
            (fun i _ => if i = 1 then some (Error.other "timeout") else none)
            [Except.ok [69], Except.ok [70], Except.ok [71]]).status = PipeStatus.returned
      ∧ (sampleStarted.pipe sampleRemote sampleLocal (fun _ => false)
            (fun i _ => if i = 1 then some (Error.other "timeout") else none)
            [Except.ok [69], Except.ok [70], Except.ok [71]]).t = sampleStarted.Close.2.1
      ∧ (sampleStarted.pipe sampleRemote sampleLocal (fun _ => false)
            (fun i _ => if i = 1 then some (Error.other "timeout") else none)
            [Except.ok [69], Except.ok [70], Except.ok [71]]).t.ctxDone = true) :=
  ⟨⟨rfl, rfl, rfl⟩,
    pipe_stops_and_closes_on_first_error sampleStarted sampleRemote sampleLocal sampleLocal
      sampleRemote (fun _ => false)
      (fun i _ => if i = 1 then some (Error.other "timeout") else none)
      [Except.ok [69], Except.ok [70], Except.ok [71]]
      [Event.readPacket sampleLocal (Except.ok [69]),
        Event.writePacket sampleRemote [69] none,
        Event.readPacket sampleLocal (Except.ok [70])]
      [Event.log (LogLine.ioError (Error.other "timeout")), Event.cancel,
        Event.close sampleLocal, Event.close sampleRemote]
      (Event.writePacket sampleRemote [70] (some (Error.other "timeout")))
      rfl rfl sample_failing_run rfl⟩

end Tun

/-! ## Theorems: tun.go, dialer publication -/

namespace Tun

open Router Config

theorem published_append (a b : List Event) : published (a ++ b) = published a ++ published b := by
  induction a with
  | nil => rfl
  | cons x xs ih => cases x <;> simp [published, ih]

theorem start_system (t : TunInbound) (env : StartEnv) (h : t.stackType = "system") :
    (t.Start env).2.1.router = t.router ∧ published (t.Start env).2.2 = [] := by
  unfold TunInbound.Start
  cases env.NewTransport "masque-default" with
  | error e => exact ⟨rfl, rfl⟩
  | ok transport =>
    dsimp only
    cases env.StartTunnel transport with
    | error e => exact ⟨rfl, rfl⟩
    | ok rc =>
      dsimp only
      rw [if_pos h]
      cases env.newNativeDevice t.tag 1280 with
      | error e => exact ⟨rfl, rfl⟩
      | ok ls => exact ⟨rfl, rfl⟩

theorem start_netstack (t : TunInbound) (env : StartEnv) (r : DefaultRouter)
    (hr : t.router = some r) (h : t.stackType = "netstack") (hok : (t.Start env).1 = none) :
    ∃ d, (t.Start env).2.1.router = some (r.SetDefaultDialer (some d))
      ∧ published (t.Start env).2.2 = [d] := by
  have hns : ¬ (t.stackType = "system") := by rw [h]; decide
  revert hok
  unfold TunInbound.Start
  cases env.NewTransport "masque-default" with
  | error e => intro hok; cases hok
  | ok transport =>
    dsimp only
    cases env.StartTunnel transport with
    | error e => intro hok; cases hok
    | ok rc =>
      dsimp only
      rw [if_neg hns, if_pos h]
      cases env.CreateNetTUN 1280 with
      | error e => intro hok; cases hok
      | ok dn =>
        obtain ⟨tunDev, tunNet⟩ := dn
        intro _
        dsimp only
        rw [hr]
        exact ⟨tunNet, rfl, rfl⟩

theorem start_publishes_only_netstack (t : TunInbound) (env : StartEnv)
    (h : t.stackType ≠ "netstack") : published (t.Start env).2.2 = [] := by
  unfold TunInbound.Start
  cases env.NewTransport "masque-default" with
  | error e => rfl
  | ok transport =>
    dsimp only
    cases env.StartTunnel transport with
    | error e => rfl
    | ok rc =>
      dsimp only
      by_cases hs : t.stackType = "system"
      · rw [if_pos hs]
        cases env.newNativeDevice t.tag 1280 <;> rfl
      · rw [if_neg hs, if_neg h]
        rfl

/-- C8: `Start` publishes a dialer to the router exactly in netstack mode, the mode in
force when the `stack` option is absent.  After a successful `Start` in netstack mode
with a router attached, exactly one `SetDefaultDialer` call was made and
`GetDefaultDialer` on that router returns the published (non-nil) dialer without error;
a `Start` in system mode, and more generally in any mode other than netstack, makes no
`SetDefaultDialer` call, and in system mode the router is left as it was. -/
theorem start_publishes_dialer_iff_netstack (t : TunInbound) (env : StartEnv) :
    (t.config.Options.lookup "stack" = none → t.stackType = "netstack")
      ∧ (∀ r, t.router = some r → t.stackType = "netstack" → (t.Start env).1 = none →
          ∃ d r1, (t.Start env).2.1.router = some r1
            ∧ r1.GetDefaultDialer.1 = Except.ok d
            ∧ published (t.Start env).2.2 = [d])
      ∧ (t.stackType = "system" →
          (t.Start env).2.1.router = t.router ∧ published (t.Start env).2.2 = [])
      ∧ (published (t.Start env).2.2 ≠ [] → t.stackType = "netstack") := by
  refine ⟨?_, ?_, start_system t env, ?_⟩
  · intro h
    simp [TunInbound.stackType, InboundOptions.getString, h]
  · intro r hr h hok
    obtain ⟨d, h1, h2⟩ := start_netstack t env r hr h hok
    exact ⟨d, r.SetDefaultDialer (some d), h1, rfl, h2⟩
  · intro hne
    by_contra hns
    exact hne (start_publishes_only_netstack t env hns)

/-- Witness for C8: a fresh inbound without `stack` option and one with `stack: "system"`,
in an environment where every outside call succeeds. -/
theorem start_publishes_dialer_iff_netstack_witness :
    (sampleFresh.config.Options.lookup "stack" = none ∧ sampleFresh.router = some Router.New
      ∧ (sampleFresh.Start sampleEnv).1 = none ∧ sampleSystem.stackType = "system")
    ∧ sampleFresh.stackType = "netstack"
    ∧ (∃ d r1, (sampleFresh.Start sampleEnv).2.1.router = some r1
          ∧ r1.GetDefaultDialer.1 = Except.ok d
          ∧ published (sampleFresh.Start sampleEnv).2.2 = [d])
    ∧ ((sampleSystem.Start sampleEnv).2.1.router = sampleSystem.router
          ∧ published (sampleSystem.Start sampleEnv).2.2 = []) :=
  ⟨⟨rfl, rfl, by decide, by decide⟩,
    (start_publishes_dialer_iff_netstack sampleFresh sampleEnv).1 rfl,
    (start_publishes_dialer_iff_netstack sampleFresh sampleEnv).2.1 Router.New rfl
      ((start_publishes_dialer_iff_netstack sampleFresh sampleEnv).1 rfl) (by decide),
    (start_publishes_dialer_iff_netstack sampleSystem sampleEnv).2.2.1 (by decide)⟩

/-- C9 (refuted as stated): a fresh inbound is started in netstack mode, which publishes
the dialer with id 7, and then closed; `GetDefaultDialer` on its router still returns
that dialer, not the "no default dialer" error. -/
theorem close_keeps_dialer_counterexample :
    published (sampleFresh.Start sampleEnv).2.2 = [{ id := 7 }]
      ∧ (sampleFresh.Start sampleEnv).2.1.Close.2.1.router
          = some { netDialer := some { id := 7 } }
      ∧ (DefaultRouter.GetDefaultDialer { netDialer := some { id := 7 } }).1
          = Except.ok { id := 7 }
      ∧ (DefaultRouter.GetDefaultDialer { netDialer := some { id := 7 } }).1
          ≠ Except.error (Error.other noDialerMsg) := by
  refine ⟨by decide, by decide, rfl, ?_⟩
  intro h
  cases h

/-- C9 (amended): `Close` of a TUN inbound leaves the router untouched and makes no
`SetDefaultDialer` call, so `GetDefaultDialer` on that router returns after `Close`
exactly what it returned before: the dialer the inbound published stays published. -/
theorem close_leaves_router_unchanged (t : TunInbound) :
    t.Close.2.1.router = t.router
      ∧ published t.Close.2.2 = []
      ∧ (t.Close.2.1.router.map fun r => r.GetDefaultDialer.1)
          = (t.router.map fun r => r.GetDefaultDialer.1) := by
  have h1 : t.Close.2.1.router = t.router := rfl
  refine ⟨h1, ?_, by rw [h1]⟩
  unfold TunInbound.Close
  cases t.localStack <;> cases t.remoteConn <;> rfl

end Tun

/-! ## Theorems: mixed.go -/

namespace Mixed

open Router Config

theorem handlersRun_append (a b : List ConnEvent) :
    handlersRun (a ++ b) = handlersRun a ++ handlersRun b := by
  induction a with
  | nil => rfl
  | cons x xs ih => cases x <;> simp [handlersRun, ih]

theorem handlersRun_copyHeader (h : List (String × List String)) :
    handlersRun (copyHeader h) = [] := by
  unfold copyHeader
  induction h with
  | nil => rfl
  | cons kv rest ih =>
    rw [List.flatMap_cons, handlersRun_append, ih, List.append_nil]
    generalize kv.2 = vs
    induction vs with
    | nil => rfl
    | cons v vs ihv => simpa [handlersRun] using ihv

theorem handlersRun_handleHttpsConnect (m : MixedInbound) (env : Env) (r : Request) :
    handlersRun (m.handleHttpsConnect env r) = [] := by
  unfold MixedInbound.handleHttpsConnect
  cases m.getDialer with
  | none => rfl
  | some res =>
    cases res with
    | error err => rfl
    | ok dialer =>
      dsimp only
      cases env.DialContext dialer "tcp" r.Host with
      | some err => rfl
      | none =>
        dsimp only
        cases env.isHijacker with
        | false => rfl
        | true => cases env.Hijack <;> rfl

theorem handlersRun_handleHttpProxy (m : MixedInbound) (env : Env) (r : Request) :
    handlersRun (m.handleHttpProxy env r) = [] := by
  unfold MixedInbound.handleHttpProxy
  cases m.getDialer with
  | none => rfl
  | some res =>
    cases res with
    | error err => rfl
    | ok dialer =>
      dsimp only
      cases env.RoundTrip dialer r with
      | error err => rfl
      | ok resp =>
        dsimp only
        simp [handlersRun, handlersRun_append, handlersRun_copyHeader]

theorem handlersRun_handler (m : MixedInbound) (env : Env) (rs : List Request) :
    handlersRun (rs.flatMap (m.handler env)) = [] := by
  induction rs with
  | nil => rfl
  | cons r rs ih =>
    rw [List.flatMap_cons, handlersRun_append, ih, List.append_nil]
    unfold MixedInbound.handler
    split
    · exact handlersRun_handleHttpsConnect m env r
    · exact handlersRun_handleHttpProxy m env r

theorem handlersRun_handleSocks5 (m : MixedInbound) (env : Env) (conn : NetConn)
    (reader : Reader) : handlersRun (m.handleSocks5 env conn reader) = [Handler.socks5] := by
  unfold MixedInbound.handleSocks5
  cases m.getDialer with
  | none => rfl
  | some res =>
    cases res with
    | error err => rfl
    | ok dialer =>
      dsimp only
      cases env.ServeConn dialer (.raw conn) with
      | none => rfl
      | some err =>
        dsimp only
        cases err.isEOF <;> rfl

theorem handlersRun_handleHttp (m : MixedInbound) (env : Env) (conn : NetConn)
    (reader : Reader) : handlersRun (m.handleHttp env conn reader) = [Handler.http] := by
  unfold MixedInbound.handleHttp
  simp [handlersRun, handlersRun_handler]

theorem read_first_delivery (b : Nat) (bs : Bytes) (rest : List SockRead) (max : Nat)
    (hmax : 0 < max) :
    ∃ tl c, (NetConn.Read { incoming := .data (b :: bs) :: rest } max) = ((b :: tl, none), c) := by
  unfold NetConn.Read
  by_cases hlen : (b :: bs).length ≤ max
  · exact ⟨bs, { incoming := rest }, by simp only [hlen, if_true]⟩
  · obtain ⟨k, hk⟩ : ∃ k, max = k + 1 := ⟨max - 1, by omega⟩
    subst hk
    exact ⟨bs.take k, { incoming := .data ((b :: bs).drop (k + 1)) :: rest },
      by simp only [hlen, if_false, List.take_succ_cons]⟩

theorem fill_first_delivery (b : Nat) (bs : Bytes) (rest : List SockRead) :
    ∃ tl c, NewReader.fill { incoming := .data (b :: bs) :: rest }
      = ({ buf := b :: tl, err := none }, c) := by
  obtain ⟨tl, c, h⟩ := read_first_delivery b bs rest (defaultBufSize - NewReader.buf.length)
    (by decide)
  refine ⟨tl, c, ?_⟩
  show Reader.fillLoop (99 + 1) NewReader _ = _
  rw [Reader.fillLoop]
  simp only [h]
  simp [NewReader]

theorem peek_first_delivery (b : Nat) (bs : Bytes) (rest : List SockRead) :
    (NewReader.Peek 1 { incoming := .data (b :: bs) :: rest }).1 = ([b], none) := by
  obtain ⟨tl, c, h⟩ := fill_first_delivery b bs rest
  have hcond : NewReader.buf.length < 1 ∧ NewReader.buf.length < defaultBufSize
      ∧ NewReader.err = none := by decide
  have hloop : Reader.peekLoop 1 1 NewReader { incoming := .data (b :: bs) :: rest }
      = ({ buf := b :: tl, err := none }, c) := by
    rw [Reader.peekLoop, if_pos hcond]
    simp only [h]
    rfl
  have h1 : ¬ (defaultBufSize < 1) := by decide
  unfold Reader.Peek
  simp only [hloop, if_neg h1]
  simp

/-- C5: `handleConnection` peeks one byte.  If the peek fails, neither protocol handler
runs.  If it yields the byte `b`, exactly one handler runs: the SOCKS5 handler when
`b = 0x05` and the HTTP handler for every other value; in particular this is so, with
`b` the first byte the client sent, whenever the first delivery on the socket is
non-empty. -/
theorem handleConnection_sniffs_first_byte (m : MixedInbound) (env : Env) (conn : NetConn) :
    (∀ err, (NewReader.Peek 1 conn).1.2 = some err →
        handlersRun (m.handleConnection env conn) = [])
      ∧ (∀ b bs, (NewReader.Peek 1 conn).1 = (b :: bs, none) →
          handlersRun (m.handleConnection env conn)
            = [if b = 5 then Handler.socks5 else Handler.http])
      ∧ (∀ b bs rest, conn.incoming = SockRead.data (b :: bs) :: rest →
          handlersRun (m.handleConnection env conn)
            = [if b = 5 then Handler.socks5 else Handler.http]) := by
  have key : ∀ b bs, (NewReader.Peek 1 conn).1 = (b :: bs, none) →
      handlersRun (m.handleConnection env conn)
        = [if b = 5 then Handler.socks5 else Handler.http] := by
    intro b bs h
    have h1 : (NewReader.Peek 1 conn).1.1 = b :: bs := by rw [h]
    have h2 : (NewReader.Peek 1 conn).1.2 = none := by rw [h]
    unfold MixedInbound.handleConnection
    simp only [h1, h2]
    by_cases hb : b = 5
    · rw [if_pos hb, if_pos hb]
      show handlersRun (_ ++ _) = _
      rw [handlersRun_append]
      show handlersRun (m.handleSocks5 env (NewReader.Peek 1 conn).2.2
        (NewReader.Peek 1 conn).2.1) ++ _ = _
      rw [handlersRun_handleSocks5]
      rfl
    · rw [if_neg hb, if_neg hb]
      show handlersRun (_ ++ _) = _
      rw [handlersRun_append]
      show handlersRun (m.handleHttp env (NewReader.Peek 1 conn).2.2
        (NewReader.Peek 1 conn).2.1) ++ _ = _
      rw [handlersRun_handleHttp]
      rfl
  refine ⟨?_, key, ?_⟩
  · intro err h
    unfold MixedInbound.handleConnection
    simp only [h]
    rfl
  · intro b bs rest h
    cases conn with
    | mk incoming =>
      simp only at h
      subst h
      exact key b [] (peek_first_delivery b bs rest)

/-- Witness for C5: a client opening with a SOCKS5 greeting, one opening with `G`, and
one that closes before sending a byte. -/
theorem handleConnection_sniffs_first_byte_witness :
    ((NewReader.Peek 1 { incoming := [] }).1.2 = some Error.EOF
      ∧ (NewReader.Peek 1 { incoming := [SockRead.data [71, 69, 84, 32]] }).1 = ([71], none)
      ∧ ({ incoming := [SockRead.data [5, 1, 0]] } : NetConn).incoming
          = SockRead.data (5 :: [1, 0]) :: [])
    ∧ handlersRun (sampleWithDialer.handleConnection sampleLibs { incoming := [] }) = []
    ∧ handlersRun (sampleWithDialer.handleConnection sampleLibs
          { incoming := [SockRead.data [71, 69, 84, 32]] })
        = [if 71 = 5 then Handler.socks5 else Handler.http]
    ∧ handlersRun (sampleWithDialer.handleConnection sampleLibs
          { incoming := [SockRead.data [5, 1, 0]] })
        = [if 5 = 5 then Handler.socks5 else Handler.http] :=
  ⟨⟨by decide, by decide, rfl⟩,
    (handleConnection_sniffs_first_byte sampleWithDialer sampleLibs { incoming := [] }).1
      Error.EOF (by decide),
    (handleConnection_sniffs_first_byte sampleWithDialer sampleLibs
      { incoming := [SockRead.data [71, 69, 84, 32]] }).2.1 71 [] (by decide),
    (handleConnection_sniffs_first_byte sampleWithDialer sampleLibs
      { incoming := [SockRead.data [5, 1, 0]] }).2.2 5 [1, 0] [] rfl⟩

theorem peek_ok_buffered (conn : NetConn) (b : Nat) (bs : Bytes)
    (h : (NewReader.Peek 1 conn).1 = (b :: bs, none)) :
    ∃ tl, (NewReader.Peek 1 conn).2.1.buf = b :: tl := by
  unfold Reader.Peek at h ⊢
  have h1 : ¬ (defaultBufSize < 1) := by decide
  simp only [if_neg h1] at h ⊢
  by_cases hlt : (Reader.peekLoop 1 1 NewReader conn).1.buf.length < 1
  · simp only [if_pos hlt] at h
    have := congrArg (fun x => x.2) h
    simp at this
  · simp only [if_neg hlt] at h ⊢
    have hb := congrArg (fun x => x.1) h
    simp only at hb
    cases hbuf : (Reader.peekLoop 1 1 NewReader conn).1.buf with
    | nil => rw [hbuf] at hb; simp at hb
    | cons x tl =>
      rw [hbuf] at hb
      simp at hb
      exact ⟨tl, by rw [hb.1]⟩

/-- The HTTP path keeps the peeked byte: whenever the peek yields the byte `b`, the first
non-empty `Read` the HTTP server performs on the `peekingConn` built from the socket and
reader left by the peek starts with `b`. -/
theorem handleHttp_parser_reads_peeked_byte_first (conn : NetConn) (b : Nat) (bs : Bytes)
    (len : Nat) (hlen : 0 < len) (h : (NewReader.Peek 1 conn).1 = (b :: bs, none)) :
    ∃ tl, (ServedConn.peeking
        ⟨(NewReader.Peek 1 conn).2.2, (NewReader.Peek 1 conn).2.1⟩).Read len
      = (b :: tl, none) := by
  obtain ⟨tl, hbuf⟩ := peek_ok_buffered conn b bs h
  obtain ⟨k, hk⟩ : ∃ k, len = k + 1 := ⟨len - 1, by omega⟩
  subst hk
  refine ⟨tl.take k, ?_⟩
  simp [ServedConn.Read, peekingConn.Read, Reader.Read, hbuf]

/-- C6 (the code at the failing input): a client sends the SOCKS5 greeting `05 01 00`.
The peek pulls all three bytes into the buffered reader; `handleSocks5` then serves the
bare socket, on which nothing is left, so the first read of the SOCKS5 parser yields no
byte and end of stream.  When the greeting arrives as `05` followed by `01 00`, the
parser's first read yields `01 00`: the stream it sees starts after the peeked byte. -/
theorem handleSocks5_parser_misses_buffered_bytes :
    sampleWithDialer.handleConnection sampleLibs { incoming := [SockRead.data [5, 1, 0]] }
        = [ConnEvent.log ConnLogLine.detectedSocks5, ConnEvent.enter Handler.socks5,
            ConnEvent.serveConn { id := 7 } (ServedConn.raw { incoming := [] }),
            ConnEvent.connClose]
      ∧ (ServedConn.raw { incoming := [] }).Read 4096 = ([], some Error.EOF)
      ∧ sampleWithDialer.handleConnection sampleLibs
            { incoming := [SockRead.data [5], SockRead.data [1, 0]] }
          = [ConnEvent.log ConnLogLine.detectedSocks5, ConnEvent.enter Handler.socks5,
              ConnEvent.serveConn { id := 7 } (ServedConn.raw { incoming := [SockRead.data [1, 0]] }),
              ConnEvent.connClose]
      ∧ (ServedConn.raw { incoming := [SockRead.data [1, 0]] }).Read 4096 = ([1, 0], none) := by
  refine ⟨by decide, by decide, by decide, by decide⟩

theorem getDialer_none (m : MixedInbound) (r : DefaultRouter) (hr : m.router = some r)
    (hd : r.netDialer = none) :
    m.getDialer = some (Except.error (Error.other noDialerMsg)) := by
  simp [MixedInbound.getDialer, hr, DefaultRouter.GetDefaultDialer, hd]

/-- C10: when the router has no default dialer registered, the CONNECT handler and the
forward-proxy handler each answer with status 503 Service Unavailable and do nothing
else, and the SOCKS5 handler logs and returns; none of the three dials, performs an
upstream round trip or runs the SOCKS5 server on the connection. -/
theorem no_default_dialer_fails_closed (m : MixedInbound) (env : Env) (r : DefaultRouter)
    (req : Request) (conn : NetConn) (reader : Reader)
    (hr : m.router = some r) (hd : r.netDialer = none) :
    m.handleHttpsConnect env req = [ConnEvent.httpError noDialerMsg 503]
      ∧ m.handleHttpProxy env req = [ConnEvent.httpError noDialerMsg 503]
      ∧ m.handleSocks5 env conn reader
          = [ConnEvent.enter Handler.socks5,
              ConnEvent.log (ConnLogLine.cannotHandleSocks5 (Error.other noDialerMsg))]
      ∧ (∀ x ∈ m.handleHttpsConnect env req ++ m.handleHttpProxy env req
            ++ m.handleSocks5 env conn reader, x.usesDialer = false) := by
  have hg := getDialer_none m r hr hd
  have h1 : m.handleHttpsConnect env req = [ConnEvent.httpError noDialerMsg 503] := by
    simp [MixedInbound.handleHttpsConnect, hg, Error.msg, StatusServiceUnavailable]
  have h2 : m.handleHttpProxy env req = [ConnEvent.httpError noDialerMsg 503] := by
    simp [MixedInbound.handleHttpProxy, hg, Error.msg, StatusServiceUnavailable]
  have h3 : m.handleSocks5 env conn reader
      = [ConnEvent.enter Handler.socks5,
          ConnEvent.log (ConnLogLine.cannotHandleSocks5 (Error.other noDialerMsg))] := by
    simp [MixedInbound.handleSocks5, hg]
  refine ⟨h1, h2, h3, ?_⟩
  intro x hx
  rw [h1, h2, h3] at hx
  simp only [List.cons_append, List.nil_append, List.mem_cons, List.mem_singleton,
    List.not_mem_nil, or_false] at hx
  rcases hx with hx | hx | hx | hx <;> subst hx <;> rfl

/-- Witness for C10: a mixed inbound whose router is fresh from `New`. -/
theorem no_default_dialer_fails_closed_witness :
    (sampleNoDialer.router = some Router.New ∧ Router.New.netDialer = none)
    ∧ (sampleNoDialer.handleHttpsConnect sampleLibs
          { Method := "CONNECT", Host := "example.org:443", URL := "" }
        = [ConnEvent.httpError noDialerMsg 503]
      ∧ sampleNoDialer.handleHttpProxy sampleLibs
          { Method := "CONNECT", Host := "example.org:443", URL := "" }
        = [ConnEvent.httpError noDialerMsg 503]
      ∧ sampleNoDialer.handleSocks5 sampleLibs { incoming := [SockRead.data [1, 0]] }
          { buf := [5], err := none }
        = [ConnEvent.enter Handler.socks5,
            ConnEvent.log (ConnLogLine.cannotHandleSocks5 (Error.other noDialerMsg))]
      ∧ (∀ x ∈ sampleNoDialer.handleHttpsConnect sampleLibs
              { Method := "CONNECT", Host := "example.org:443", URL := "" }
            ++ sampleNoDialer.handleHttpProxy sampleLibs
              { Method := "CONNECT", Host := "example.org:443", URL := "" }
            ++ sampleNoDialer.handleSocks5 sampleLibs { incoming := [SockRead.data [1, 0]] }
              { buf := [5], err := none }, x.usesDialer = false)) :=
  ⟨⟨rfl, rfl⟩,
    no_default_dialer_fails_closed sampleNoDialer sampleLibs Router.New
      { Method := "CONNECT", Host := "example.org:443", URL := "" }
      { incoming := [SockRead.data [1, 0]] } { buf := [5], err := none } rfl rfl⟩

end Mixed

/-! ## Theorems: tun.go, Close -/

namespace Tun

open Router Config

/-- C11: `Close` cancels the inbound's context, then closes the local stack if one was
created, then closes the remote `PacketConn` if one was opened, whatever the local
stack's `Close` returned; it returns the local stack's error when that is non-nil,
otherwise the remote's error, and nil when neither close failed. -/
theorem close_sequence_and_first_error (t : TunInbound) :
    t.Close.2.1.ctxDone = true
      ∧ t.Close.2.2
          = Event.cancel :: ((t.localStack.map Event.close).toList
              ++ (t.remoteConn.map Event.close).toList)
      ∧ t.Close.1
          = (match t.localStack.bind (fun ls => ls.closeErr) with
             | some e => some e
             | none => t.remoteConn.bind (fun rc => rc.closeErr))
      ∧ (t.localStack.bind (fun ls => ls.closeErr) = none
          → t.remoteConn.bind (fun rc => rc.closeErr) = none → t.Close.1 = none) := by
  have h3 : t.Close.1
      = (match t.localStack.bind (fun ls => ls.closeErr) with
         | some e => some e
         | none => t.remoteConn.bind (fun rc => rc.closeErr)) := by
    unfold TunInbound.Close
    cases hl : t.localStack with
    | none =>
      cases hr : t.remoteConn with
      | none => rfl
      | some rc => cases hrc : rc.closeErr <;> simp [firstError, hrc]
    | some ls =>
      cases hr : t.remoteConn with
      | none => cases hlc : ls.closeErr <;> simp [firstError, hlc]
      | some rc =>
        cases hlc : ls.closeErr <;> cases hrc : rc.closeErr <;> simp [firstError, hlc, hrc]
  refine ⟨rfl, ?_, h3, ?_⟩
  · unfold TunInbound.Close
    cases t.localStack <;> cases t.remoteConn <;> rfl
  · intro h1 h2
    rw [h3, h1, h2]

/-- Witness for C11: a local stack whose `Close` fails; the remote is closed all the same
and the local stack's error is the one returned. -/
theorem close_sequence_and_first_error_witness :
    ({ sampleStarted with
        localStack := some { name := "netstack", closeErr := some (Error.other "busy") } }
      : TunInbound).Close.2.2
        = [Event.cancel, Event.close { name := "netstack", closeErr := some (Error.other "busy") },
            Event.close sampleRemote]
      ∧ ({ sampleStarted with
          localStack := some { name := "netstack", closeErr := some (Error.other "busy") } }
        : TunInbound).Close.1 = some (Error.other "busy")
      ∧ sampleStarted.Close.1 = none :=
  ⟨(close_sequence_and_first_error _).2.1, (close_sequence_and_first_error _).2.2.1,
    (close_sequence_and_first_error sampleStarted).2.2.2 rfl rfl⟩

/-- C12 (refuted as stated): `Close` on an inbound fresh from `New`, on which `Start` was
never called, returns nil. -/
theorem close_before_start_counterexample :
    ¬ (sampleFresh.Close.1).isSome := by
  decide

/-- C12 (amended): `Close` on an inbound fresh from `New` returns nil: it cancels the
context and, there being neither a local stack nor a remote connection yet, closes
nothing. -/
theorem close_before_start_returns_nil (router : Option DefaultRouter)
    (options : InboundOptions) :
    (New router options).Close.1 = none
      ∧ (New router options).Close.2.2 = [Event.cancel]
      ∧ (New router options).Close.2.1.ctxDone = true := by
  exact ⟨rfl, rfl, rfl⟩

theorem closeCalls_append (a b : List Event) :
    closeCalls (a ++ b) = closeCalls a ++ closeCalls b := by
  induction a with
  | nil => rfl
  | cons x xs ih => cases x <;> simp [closeCalls, ih]

theorem close_keeps_conns (t : TunInbound) :
    t.Close.2.1.localStack = t.localStack ∧ t.Close.2.1.remoteConn = t.remoteConn :=
  ⟨rfl, rfl⟩

theorem closeCalls_close (t : TunInbound) (ls rc : PacketConn)
    (hls : t.localStack = some ls) (hrc : t.remoteConn = some rc) :
    closeCalls t.Close.2.2 = [ls, rc] := by
  simp [TunInbound.Close, hls, hrc, closeCalls]

/-- C13 (refuted as stated): two `Close` calls on a started inbound, as made by a pump
direction on an I/O error and then by the supervisor, invoke the local stack's `Close`
twice and the remote connection's `Close` twice. -/
theorem close_twice_counterexample :
    closeCalls (sampleStarted.CloseN 2).2 = [sampleLocal, sampleRemote, sampleLocal, sampleRemote]
      ∧ (closeCalls (sampleStarted.CloseN 2).2).count sampleLocal = 2
      ∧ (closeCalls (sampleStarted.CloseN 2).2).count sampleRemote = 2 := by
  decide

end Tun

/-! ## Theorems: tunnel.go, the buffer pool -/

namespace Masque

open Config

theorem mem_of_get?_some {α : Type} (l : List α) (i : Nat) (a : α) (h : l.get? i = some a) :
    a ∈ l := by
  obtain ⟨hi, ha⟩ := List.get?_eq_some.mp h
  rw [← ha]
  exact List.get_mem l i hi

theorem new_cap (n : NetBuffer) (h : 0 ≤ n.capacity) : (n.New.cap : Int) = n.capacity :=
  Int.toNat_of_nonneg h

theorem run_get_capacity : ∀ (ops : List PoolOp) (n : NetBuffer), 0 ≤ n.capacity →
    (∀ s ∈ n.buf, (s.cap : Int) = n.capacity) →
    ∀ s ∈ (n.run ops).2, (s.cap : Int) = n.capacity := by
  intro ops
  induction ops with
  | nil => intro n _ _ s hs; simp [NetBuffer.run] at hs
  | cons op ops ih =>
    intro n hn hinv s hs
    cases op with
    | get pick =>
      have hg : (∀ x ∈ (n.Get pick).2.buf, (x.cap : Int) = (n.Get pick).2.capacity)
          ∧ (n.Get pick).2.capacity = n.capacity ∧ ((n.Get pick).1.cap : Int) = n.capacity := by
        unfold NetBuffer.Get
        cases pick with
        | none => exact ⟨hinv, rfl, new_cap n hn⟩
        | some i =>
          dsimp only
          cases hget : n.buf.get? i with
          | none => exact ⟨hinv, rfl, new_cap n hn⟩
          | some x =>
            refine ⟨?_, rfl, hinv x (mem_of_get?_some n.buf i x hget)⟩
            intro y hy
            exact hinv y (List.mem_of_mem_eraseIdx hy)
      simp only [NetBuffer.run, List.mem_cons] at hs
      rcases hs with hs | hs
      · rw [hs]; exact hg.2.2
      · have := ih (n.Get pick).2 (by rw [hg.2.1]; exact hn) hg.1 s hs
        rw [this, hg.2.1]
    | put buf =>
      simp only [NetBuffer.run] at hs
      have hp : (∀ x ∈ (n.Put buf).buf, (x.cap : Int) = (n.Put buf).capacity)
          ∧ (n.Put buf).capacity = n.capacity := by
        unfold NetBuffer.Put
        by_cases hc : (buf.cap : Int) ≠ n.capacity
        · rw [if_pos hc]; exact ⟨hinv, rfl⟩
        · rw [if_neg hc]
          refine ⟨?_, rfl⟩
          intro x hx
          simp only [List.mem_cons] at hx
          rcases hx with hx | hx
          · rw [hx]; exact not_not.mp hc
          · exact hinv x hx
      have := ih (n.Put buf) (by rw [hp.2]; exact hn) hp.1 s hs
      rw [this, hp.2]
    | drop i =>
      simp only [NetBuffer.run] at hs
      exact ih { n with buf := n.buf.eraseIdx i } hn
        (fun x hx => hinv x (List.mem_of_mem_eraseIdx hx)) s hs

/-- C14: for every pool created by `NewNetBuffer(c)` with `c > 0` (creation succeeds) and
every finite sequence of `Get` and `Put` calls on it, whatever slices are put, whatever
held slice the pool hands out and whatever it drops in between, every `Get` returns a
slice whose capacity equals `c`. -/
theorem netBuffer_get_has_pool_capacity (c : Int) (hc : 0 < c) :
    ∃ n, NewNetBuffer c = some n
      ∧ ∀ (ops : List PoolOp), ∀ s ∈ (n.run ops).2, (s.cap : Int) = c := by
  refine ⟨{ capacity := c, buf := [] }, ?_, ?_⟩
  · unfold NewNetBuffer
    rw [if_neg (not_le.mpr hc)]
  · intro ops s hs
    exact run_get_capacity ops { capacity := c, buf := [] } (le_of_lt hc)
      (fun x hx => by simp at hx) s hs

/-- Witness for C14: a pool of capacity 4 that is offered a short and a right-sized
slice. -/
theorem netBuffer_get_has_pool_capacity_witness :
    (0 : Int) < 4
      ∧ ∃ n, NewNetBuffer 4 = some n
          ∧ ∀ (ops : List PoolOp), ∀ s ∈ (n.run ops).2, (s.cap : Int) = 4 :=
  ⟨by decide, netBuffer_get_has_pool_capacity 4 (by decide)⟩

/-- C15: `Put(buf)` leaves the pool exactly as it was whenever `cap(buf)` differs from the
pool's capacity, and adds `buf`, and nothing else, to the held slices when `cap(buf)`
equals it. -/
theorem netBuffer_put_discards_wrong_capacity (n : NetBuffer) (buf : Slice) :
    ((buf.cap : Int) ≠ n.capacity → n.Put buf = n)
      ∧ ((buf.cap : Int) = n.capacity →
          (n.Put buf).buf = buf :: n.buf ∧ (n.Put buf).capacity = n.capacity)
      ∧ (buf ∈ (n.Put buf).buf → buf ∉ n.buf → (buf.cap : Int) = n.capacity) := by
  refine ⟨?_, ?_, ?_⟩
  · intro h
    unfold NetBuffer.Put
    rw [if_pos h]
  · intro h
    unfold NetBuffer.Put
    rw [if_neg (not_not.mpr h)]
    exact ⟨rfl, rfl⟩
  · intro hin hnot
    by_contra hne
    have : n.Put buf = n := by
      unfold NetBuffer.Put
      rw [if_pos hne]
    rw [this] at hin
    exact hnot hin

/-- Witness for C15: a slice of capacity 3 is discarded by a pool of capacity 4, a slice
of capacity 4 is added. -/
theorem netBuffer_put_discards_wrong_capacity_witness :
    ((({ data := [1], cap := 3 } : Slice).cap : Int) ≠ 4
        ∧ (({ data := [1], cap := 4 } : Slice).cap : Int) = 4)
      ∧ NetBuffer.Put { capacity := 4, buf := [] } { data := [1], cap := 3 }
          = { capacity := 4, buf := [] }
      ∧ (NetBuffer.Put { capacity := 4, buf := [] } { data := [1], cap := 4 }).buf
          = [{ data := [1], cap := 4 }] :=
  ⟨⟨by decide, by decide⟩,
    (netBuffer_put_discards_wrong_capacity { capacity := 4, buf := [] }
      { data := [1], cap := 3 }).1 (by decide),
    ((netBuffer_put_discards_wrong_capacity { capacity := 4, buf := [] }
      { data := [1], cap := 4 }).2.1 (by decide)).1⟩

end Masque

/-! ## Theorems: masque.go and transport.go, dialing and construction -/

namespace Masque

open Config

theorem wrapped_ne_loginFailed (m : String) :
    "failed to dial connect-ip: " ++ m ≠ loginFailedMsg := by
  intro h
  have h2 := congrArg String.data h
  rw [String.data_append] at h2
  have h3 := congrArg List.head? h2
  simp [loginFailedMsg] at h3

/-- C17: when the CONNECT-IP dial fails with error `e`, `ConnectTunnel` returns the
"login failed ... key ... enrolled" error if and only if the text of `e` is
`CRYPTO_ERROR 0x131 (remote): tls: access denied`; every other dial error comes back as
`failed to dial connect-ip: ` followed by the text of `e`, which is never the login-failed
error; in both cases only the UDP socket is handed back. -/
theorem connectTunnel_access_denied_iff (env : NetEnv) (tlsConfig : TlsConfig)
    (quicConfig : QuicConfig) (connectUri : String) (endpoint : UDPAddr) (u : UDPConn)
    (q : QuicConn) (e : Error)
    (hl : env.ListenUDP (listenAddr endpoint) = .ok u)
    (hq : env.quicDial u endpoint quicConfig = .ok q)
    (hd : env.connectipDial q connectUri = .error e) :
    ((ConnectTunnel env tlsConfig quicConfig connectUri endpoint).err
          = some (Error.other loginFailedMsg) ↔ e.msg = accessDeniedMsg)
      ∧ (e.msg ≠ accessDeniedMsg →
          (ConnectTunnel env tlsConfig quicConfig connectUri endpoint).err
            = some (Error.other ("failed to dial connect-ip: " ++ e.msg)))
      ∧ (ConnectTunnel env tlsConfig quicConfig connectUri endpoint).udpConn = some u
      ∧ (ConnectTunnel env tlsConfig quicConfig connectUri endpoint).ipConn = none := by
  by_cases hm : e.msg = accessDeniedMsg
  · have hr : ConnectTunnel env tlsConfig quicConfig connectUri endpoint
        = ⟨some u, none, none, none, some (.other loginFailedMsg)⟩ := by
      simp [ConnectTunnel, hl, hq, hd, hm]
    rw [hr]
    exact ⟨⟨fun _ => hm, fun _ => rfl⟩, fun h => absurd hm h, rfl, rfl⟩
  · have hr : ConnectTunnel env tlsConfig quicConfig connectUri endpoint
        = ⟨some u, none, none, none,
            some (.other ("failed to dial connect-ip: " ++ e.msg))⟩ := by
      simp [ConnectTunnel, hl, hq, hd, hm]
    rw [hr]
    refine ⟨⟨?_, fun h => absurd h hm⟩, fun _ => rfl, rfl, rfl⟩
    intro h
    simp only [Option.some.injEq, Error.other.injEq] at h
    exact absurd h (wrapped_ne_loginFailed e.msg)

/-- Witness for C17: a dial that fails with a timeout. -/
theorem connectTunnel_access_denied_iff_witness :
    ((sampleNetDialError (Error.other "timeout: no recent network activity")).ListenUDP
          (listenAddr { IP := none, Port := 443 }) = .ok { name := "udp", closeErr := none }
      ∧ (Error.other "timeout: no recent network activity").msg ≠ accessDeniedMsg)
    ∧ (ConnectTunnel (sampleNetDialError (Error.other "timeout: no recent network activity"))
          sampleTlsConfig (DefaultQuicConfig (30 * Second) 1242) ConnectURI
          { IP := none, Port := 443 }).err
        = some (Error.other
            ("failed to dial connect-ip: " ++ (Error.other "timeout: no recent network activity").msg)) :=
  ⟨⟨rfl, by decide⟩,
    (connectTunnel_access_denied_iff
      (sampleNetDialError (Error.other "timeout: no recent network activity")) sampleTlsConfig
      (DefaultQuicConfig (30 * Second) 1242) ConnectURI
      { IP := none, Port := 443 } { name := "udp", closeErr := none } { id := 1 }
      (Error.other "timeout: no recent network activity") rfl rfl rfl).2.1 (by decide)⟩

/-- C18: when the tunnel dial succeeds with CONNECT-IP session `ip`, HTTP/3 transport `tr`
and UDP socket `u`: for a response status other than 200, `StartTunnel` closes `ip`, then
`tr`, then `u`, and returns no `PacketConn` together with an error; for status 200 it
closes none of them and returns, without error, a `PacketConn` wrapping `ip`, `u` and
`tr`. -/
theorem startTunnel_closes_on_bad_status (t : Transport) (env : NetEnv) (u : UDPConn)
    (q : QuicConn) (ip : IPConn) (rsp : HttpResponse)
    (hl : env.ListenUDP (listenAddr t.endpoint) = .ok u)
    (hq : env.quicDial u t.endpoint t.quicConfig = .ok q)
    (hd : env.connectipDial q ConnectURI = .ok (ip, rsp)) :
    (rsp.StatusCode ≠ 200 →
        (t.StartTunnel env).trace
            = [TunnelEvent.closeIP ip,
                TunnelEvent.closeH3 ⟨true, [(0x276, 1)], true, env.h3CloseErr⟩,
                TunnelEvent.closeUDP u]
          ∧ (t.StartTunnel env).conn = none
          ∧ (t.StartTunnel env).err
              = some (Error.other ("tunnel connection failed with status: " ++ rsp.Status)))
      ∧ (rsp.StatusCode = 200 →
        (t.StartTunnel env).trace = []
          ∧ (t.StartTunnel env).conn
              = some ⟨some ip, some u, some ⟨true, [(0x276, 1)], true, env.h3CloseErr⟩⟩
          ∧ (t.StartTunnel env).err = none) := by
  have hc : ConnectTunnel env t.tlsConfig t.quicConfig ConnectURI t.endpoint
      = ⟨some u, some ⟨true, [(0x276, 1)], true, env.h3CloseErr⟩, some ip, some rsp, none⟩ := by
    simp [ConnectTunnel, hl, hq, hd]
  constructor
  · intro hs
    simp [Transport.StartTunnel, hc, hs]
  · intro hs
    simp [Transport.StartTunnel, hc, hs]

/-- Witness for C18: the server answers 403, and the server answers 200. -/
theorem startTunnel_closes_on_bad_status_witness :
    ((403 : Nat) ≠ 200 ∧ (200 : Nat) = 200)
    ∧ ((sampleTransport.StartTunnel (sampleNet 403)).trace
        = [TunnelEvent.closeIP { name := "connect-ip", closeErr := none },
            TunnelEvent.closeH3 ⟨true, [(0x276, 1)], true, none⟩,
            TunnelEvent.closeUDP { name := "udp", closeErr := none }])
    ∧ ((sampleTransport.StartTunnel (sampleNet 200)).trace = []) :=
  ⟨⟨by decide, rfl⟩,
    ((startTunnel_closes_on_bad_status sampleTransport (sampleNet 403) { name := "udp", closeErr := none }
      { id := 1 } { name := "connect-ip", closeErr := none } { StatusCode := 403, Status := "" }
      rfl rfl rfl).1 (by decide)).1,
    ((startTunnel_closes_on_bad_status sampleTransport (sampleNet 200) { name := "udp", closeErr := none }
      { id := 1 } { name := "connect-ip", closeErr := none } { StatusCode := 200, Status := "" }
      rfl rfl rfl).2 rfl).1⟩

end Masque

/-! ## Theorems: transport.go, NewTransport -/

namespace Masque

open Config

theorem newTransport_key_errors (app : AppConfig) (libs : Libs) (tag : String)
    (options : List (String × Value)) (e : Error) :
    (app.GetEcPrivateKey = .error e → NewTransport app libs tag options = .error e)
      ∧ (∀ k, app.GetEcPrivateKey = .ok k → app.GetEcEndpointPublicKey = .error e →
          NewTransport app libs tag options = .error e) := by
  constructor
  · intro h
    simp [NewTransport, h]
  · intro k hk h
    simp [NewTransport, hk, h]

theorem newTransport_ok (app : AppConfig) (libs : Libs) (tag : String)
    (options : List (String × Value)) (priv : EcdsaPrivateKey) (pub : EcdsaPublicKey)
    (cert : Bytes) (h1 : app.GetEcPrivateKey = .ok priv)
    (h2 : app.GetEcEndpointPublicKey = .ok pub) (h3 : libs.CreateCertificate priv = .ok cert) :
    ∃ t, NewTransport app libs tag options = .ok t
      ∧ t.tag = tag
      ∧ t.tlsConfig.ServerName = ConnectSNI
      ∧ t.quicConfig = { EnableDatagrams := true, InitialPacketSize := 1242,
                         KeepAlivePeriod := 30 * Second }
      ∧ t.endpoint = { IP := libs.ParseIP app.EndpointV4, Port := 443 } := by
  simp [NewTransport, h1, h2, h3, GenerateCert, PrepareTlsConfig, DefaultQuicConfig]

/-- C19 (the code at the failing input): with both keys present in the profile,
`NewTransport` returns a transport and no error when the profile's IPv4 endpoint is empty
and when it is not an IP address; the transport's endpoint address is then nil. -/
theorem newTransport_accepts_bad_endpoint :
    (∃ t, NewTransport (sampleApp "") sampleLibraries "masque-default" [] = .ok t
        ∧ t.endpoint = { IP := none, Port := 443 })
      ∧ (∃ t, NewTransport (sampleApp "not-an-address") sampleLibraries "masque-default" []
            = .ok t
          ∧ t.endpoint = { IP := none, Port := 443 }) := by
  constructor
  · obtain ⟨t, h, _, _, _, he⟩ := newTransport_ok (sampleApp "") sampleLibraries
      "masque-default" [] _ _ _ rfl rfl rfl
    exact ⟨t, h, by rw [he]; decide⟩
  · obtain ⟨t, h, _, _, _, he⟩ := newTransport_ok (sampleApp "not-an-address") sampleLibraries
      "masque-default" [] _ _ _ rfl rfl rfl
    exact ⟨t, h, by rw [he]; decide⟩

/-- C20 (refuted as stated): options supplying an SNI, a keep-alive interval, an initial
packet size and a connect port are handed to `NewTransport`; the transport it returns
carries none of them but the built-in values. -/
theorem newTransport_ignores_options_counterexample :
    ∃ t, NewTransport (sampleApp "162.159.198.1") sampleLibraries "masque-default"
          [("sni", Value.str "example.org"), ("keepalive", Value.number 10),
            ("initial_packet_size", Value.number 1300), ("connect_port", Value.number 8443)]
        = .ok t
      ∧ t.tlsConfig.ServerName ≠ "example.org"
      ∧ t.quicConfig.KeepAlivePeriod ≠ 10 * Second
      ∧ t.quicConfig.InitialPacketSize ≠ 1300
      ∧ t.endpoint.Port ≠ 8443 := by
  obtain ⟨t, h, _, hs, hq, he⟩ := newTransport_ok (sampleApp "162.159.198.1") sampleLibraries
    "masque-default"
    [("sni", Value.str "example.org"), ("keepalive", Value.number 10),
      ("initial_packet_size", Value.number 1300), ("connect_port", Value.number 8443)]
    _ _ _ rfl rfl rfl
  refine ⟨t, h, ?_, ?_, ?_, ?_⟩
  · rw [hs]; decide
  · rw [hq]; decide
  · rw [hq]; decide
  · rw [he]; decide

/-- C20 (amended): `NewTransport` does not read its options: whatever options are
supplied, the result is the one obtained with none, and a transport it returns always
has SNI `consumer-masque.cloudflareclient.com`, keep-alive 30 s, initial packet size 1242
bytes, connect port 443 and a QUIC configuration with datagrams enabled. -/
theorem newTransport_uses_builtin_values (app : AppConfig) (libs : Libs) (tag : String)
    (options : List (String × Value)) :
    NewTransport app libs tag options = NewTransport app libs tag []
      ∧ ∀ t, NewTransport app libs tag options = .ok t →
          t.tlsConfig.ServerName = "consumer-masque.cloudflareclient.com"
            ∧ t.quicConfig.KeepAlivePeriod = 30 * 1000000000
            ∧ t.quicConfig.InitialPacketSize = 1242
            ∧ t.endpoint.Port = 443
            ∧ t.quicConfig.EnableDatagrams = true := by
  refine ⟨rfl, ?_⟩
  intro t ht
  cases h1 : app.GetEcPrivateKey with
  | error e => simp [NewTransport, h1] at ht
  | ok priv =>
    cases h2 : app.GetEcEndpointPublicKey with
    | error e => simp [NewTransport, h1, h2] at ht
    | ok pub =>
      cases h3 : libs.CreateCertificate priv with
      | error e => simp [NewTransport, h1, h2, h3, GenerateCert] at ht
      | ok cert =>
        obtain ⟨t2, h, _, hs, hq, he⟩ := newTransport_ok app libs tag options priv pub cert
          h1 h2 h3
        rw [h] at ht
        cases ht
        rw [hs, hq, he]
        exact ⟨rfl, rfl, rfl, rfl, rfl⟩

/-- Witness for C20 (amended): the profile with both keys and a valid endpoint. -/
theorem newTransport_uses_builtin_values_witness :
    ∃ t, NewTransport (sampleApp "162.159.198.1") sampleLibraries "masque-default"
          [("sni", Value.str "example.org")] = .ok t
      ∧ t.tlsConfig.ServerName = "consumer-masque.cloudflareclient.com"
      ∧ t.quicConfig.KeepAlivePeriod = 30 * 1000000000
      ∧ t.quicConfig.InitialPacketSize = 1242
      ∧ t.endpoint.Port = 443
      ∧ t.quicConfig.EnableDatagrams = true :=
  ⟨_, rfl,
    (newTransport_uses_builtin_values (sampleApp "162.159.198.1") sampleLibraries
      "masque-default" [("sni", Value.str "example.org")]).2 _ rfl⟩

end Masque

/-! ## Theorems: repeated Close -/

namespace Tun

open Router Config

theorem closeN_calls (ls rc : PacketConn) : ∀ (n : Nat) (t : TunInbound),
    t.localStack = some ls → t.remoteConn = some rc →
    closeCalls (t.CloseN n).2 = (List.replicate n [ls, rc]).flatten := by
  intro n
  induction n with
  | zero => intro t _ _; rfl
  | succ n ih =>
    intro t hls hrc
    have hstep : (t.CloseN (n + 1)).2 = t.Close.2.2 ++ (t.Close.2.1.CloseN n).2 := rfl
    rw [hstep, closeCalls_append, closeCalls_close t ls rc hls hrc,
      ih t.Close.2.1 hls hrc, List.replicate_succ, List.flatten_cons]

theorem masque_closeN (ip : Masque.IPConn) (u : Masque.UDPConn)
    (c : Masque.masquePacketConn) (h1 : c.Conn = some ip) (h2 : c.udpConn = some u) :
    ∀ n : Nat, c.CloseN n
      = (List.replicate n [Masque.TunnelEvent.closeIP ip, Masque.TunnelEvent.closeUDP u]).flatten := by
  intro n
  induction n with
  | zero => rfl
  | succ n ih =>
    rw [Masque.masquePacketConn.CloseN, ih, List.replicate_succ, List.flatten_cons]
    simp [Masque.masquePacketConn.Close, h1, h2]

/-- C13 (amended): there is no once-guard.  Every `Close` call on a started TUN inbound
invokes the local stack's `Close` and then the remote `PacketConn`'s `Close`, so `n`
`Close` calls invoke each of them `n` times; and every `masquePacketConn.Close` call
closes the CONNECT-IP session and then the UDP socket, so `n` calls close each of them
`n` times. -/
theorem close_invokes_resource_close_every_time (t : TunInbound) (ls rc : PacketConn)
    (c : Masque.masquePacketConn) (ip : Masque.IPConn) (u : Masque.UDPConn) (n : Nat)
    (hls : t.localStack = some ls) (hrc : t.remoteConn = some rc)
    (hip : c.Conn = some ip) (hu : c.udpConn = some u) :
    closeCalls (t.CloseN n).2 = (List.replicate n [ls, rc]).flatten
      ∧ (closeCalls (t.CloseN n).2).length = 2 * n
      ∧ c.CloseN n
          = (List.replicate n
              [Masque.TunnelEvent.closeIP ip, Masque.TunnelEvent.closeUDP u]).flatten := by
  have h := closeN_calls ls rc n t hls hrc
  refine ⟨h, ?_, masque_closeN ip u c hip hu n⟩
  rw [h]
  simp [List.length_flatten]
  ring

/-- Witness for C13 (amended): three `Close` calls on a started inbound and on a tunnel
connection. -/
theorem close_invokes_resource_close_every_time_witness :
    (sampleStarted.localStack = some sampleLocal ∧ sampleStarted.remoteConn = some sampleRemote)
    ∧ closeCalls (sampleStarted.CloseN 3).2
        = (List.replicate 3 [sampleLocal, sampleRemote]).flatten
    ∧ (closeCalls (sampleStarted.CloseN 3).2).length = 2 * 3
    ∧ Masque.masquePacketConn.CloseN 3
          ⟨some { name := "connect-ip", closeErr := none },
            some { name := "udp", closeErr := none }, none⟩
        = (List.replicate 3
            [Masque.TunnelEvent.closeIP { name := "connect-ip", closeErr := none },
              Masque.TunnelEvent.closeUDP { name := "udp", closeErr := none }]).flatten :=
  ⟨⟨rfl, rfl⟩,
    close_invokes_resource_close_every_time sampleStarted sampleLocal sampleRemote
      ⟨some { name := "connect-ip", closeErr := none },
        some { name := "udp", closeErr := none }, none⟩
      { name := "connect-ip", closeErr := none } { name := "udp", closeErr := none } 3
      rfl rfl rfl rfl⟩

end Tun

/-! ## Theorems: mixed.go, the forward proxy -/

namespace Mixed

open Router Config

theorem get_append (h : Header) (k v k2 : String) :
    Header.get (Header.append h k v) k2
      = if k = k2 then Header.get h k2 ++ [v] else Header.get h k2 := by
  induction h with
  | nil =>
    by_cases hk : k = k2 <;> simp [Header.append, Header.get, hk]
  | cons kv rest ih =>
    obtain ⟨k0, vs⟩ := kv
    by_cases h0 : k0 = k
    · subst h0
      by_cases hk : k0 = k2 <;> simp [Header.append, Header.get, hk]
    · by_cases hk : k = k2
      · subst hk
        simp [Header.append, Header.get, h0, ih]
      · by_cases h2 : k0 = k2
        · subst h2
          simp [Header.append, Header.get, h0, hk]
        · simp [Header.append, Header.get, h0, hk, h2, ih]

theorem get_addValues (canon : String → String) (k : String) (hk : canon k = k) (k2 : String) :
    ∀ (vs : List String) (h : Header),
      Header.get (vs.foldl (fun a v => Header.Add canon a k v) h) k2
        = if k = k2 then Header.get h k2 ++ vs else Header.get h k2 := by
  intro vs
  induction vs with
  | nil => intro h; by_cases hkk : k = k2 <;> simp [hkk]
  | cons v vs ih =>
    intro h
    rw [List.foldl_cons, ih]
    unfold Header.Add
    rw [hk, get_append]
    by_cases hkk : k = k2 <;> simp [hkk]

theorem get_absent (es : Header) (k : String) (h : k ∉ es.map Prod.fst) :
    Header.get es k = [] := by
  induction es with
  | nil => rfl
  | cons kv rest ih =>
    obtain ⟨k0, vs⟩ := kv
    simp only [List.map_cons, List.mem_cons, not_or] at h
    have h0 : ¬ k0 = k := fun e => h.1 e.symm
    simp [Header.get, h0, ih h.2]

theorem get_addAll (canon : String → String) (k2 : String) :
    ∀ (es : List (String × List String)) (h : Header),
      (∀ kv ∈ es, canon kv.1 = kv.1) → (es.map Prod.fst).Nodup →
      Header.get (addAll canon es h) k2 = Header.get h k2 ++ Header.get es k2 := by
  intro es
  induction es with
  | nil => intro h _ _; simp [addAll, Header.get]
  | cons kv rest ih =>
    intro h hc hn
    obtain ⟨k0, vs⟩ := kv
    have hc0 : canon k0 = k0 := hc (k0, vs) (List.mem_cons_self _ _)
    have hcr : ∀ kv ∈ rest, canon kv.1 = kv.1 := fun kv hkv => hc kv (List.mem_cons_of_mem _ hkv)
    simp only [List.map_cons, List.nodup_cons] at hn
    have hstep : addAll canon ((k0, vs) :: rest) h
        = addAll canon rest (vs.foldl (fun a v => Header.Add canon a k0 v) h) := rfl
    rw [hstep, ih _ hcr hn.2, get_addValues canon k0 hc0 k2]
    by_cases hk : k0 = k2
    · subst hk
      simp [Header.get, get_absent rest k0 hn.1]
    · simp [Header.get, hk]

theorem headerSent_values (canon : String → String) (k : String) :
    ∀ (vs : List String) (t2 : List ConnEvent) (h : Header),
      headerSent canon (vs.map (fun v => ConnEvent.headerAdd k v) ++ t2) h
        = headerSent canon t2 (vs.foldl (fun a v => Header.Add canon a k v) h) := by
  intro vs
  induction vs with
  | nil => intro t2 h; rfl
  | cons v vs ihv =>
    intro t2 h
    simp only [List.map_cons, List.cons_append, headerSent, List.foldl_cons]
    exact ihv t2 _

theorem headerSent_copyHeader (canon : String → String) (tail : List ConnEvent) :
    ∀ (es : List (String × List String)) (h : Header),
      headerSent canon (copyHeader es ++ tail) h = headerSent canon tail (addAll canon es h) := by
  intro es
  induction es with
  | nil => intro h; rfl
  | cons kv rest ih =>
    intro h
    obtain ⟨k0, vs⟩ := kv
    have hstep : addAll canon ((k0, vs) :: rest) h
        = addAll canon rest (vs.foldl (fun a v => Header.Add canon a k0 v) h) := rfl
    have hcopy : copyHeader ((k0, vs) :: rest) ++ tail
        = vs.map (fun v => ConnEvent.headerAdd k0 v) ++ (copyHeader rest ++ tail) := by
      unfold copyHeader
      rw [List.flatMap_cons, List.append_assoc]
    rw [hstep, hcopy, headerSent_values, ih]

theorem statusSent_values (k : String) :
    ∀ (vs : List String) (t2 : List ConnEvent),
      statusSent (vs.map (fun v => ConnEvent.headerAdd k v) ++ t2) = statusSent t2 := by
  intro vs
  induction vs with
  | nil => intro t2; rfl
  | cons v vs ihv =>
    intro t2
    simp only [List.map_cons, List.cons_append, statusSent]
    exact ihv t2

theorem statusSent_copyHeader (code : Nat) (tail : List ConnEvent) :
    ∀ es : List (String × List String),
      statusSent (copyHeader es ++ ConnEvent.writeHeader code :: tail) = some code := by
  intro es
  induction es with
  | nil => rfl
  | cons kv rest ih =>
    obtain ⟨k0, vs⟩ := kv
    have hcopy : copyHeader ((k0, vs) :: rest) ++ ConnEvent.writeHeader code :: tail
        = vs.map (fun v => ConnEvent.headerAdd k0 v)
            ++ (copyHeader rest ++ ConnEvent.writeHeader code :: tail) := by
      unfold copyHeader
      rw [List.flatMap_cons, List.append_assoc]
    rw [hcopy, statusSent_values k0, ih]

/-- C16: in the forward-proxy handler, when a dialer is registered and the upstream round
trip succeeds, the response written to the client carries the upstream's status code
and, for every header name, exactly the upstream's list of values for that name in the
same order (a name with `n` values yields `n` values), the response writer's header map
being empty beforehand.  The names of the upstream response are in canonical form and
pairwise distinct, as `net/http` delivers them; the order in which the map iteration
yields the names is arbitrary. -/
theorem handleHttpProxy_copies_status_and_headers (m : MixedInbound) (env : Env)
    (req : Request) (d : Dialer) (resp : Response) (canon : String → String)
    (hd : m.getDialer = some (Except.ok d)) (hr : env.RoundTrip d req = Except.ok resp)
    (hcanon : ∀ kv ∈ resp.Header, canon kv.1 = kv.1)
    (hnodup : (resp.Header.map Prod.fst).Nodup) :
    statusSent (m.handleHttpProxy env req) = some resp.StatusCode
      ∧ ∀ k, Header.get (headerSent canon (m.handleHttpProxy env req) []) k
          = Header.get resp.Header k := by
  have htr : m.handleHttpProxy env req
      = ConnEvent.roundTrip d req
          :: (copyHeader resp.Header
              ++ [ConnEvent.writeHeader resp.StatusCode, ConnEvent.copyBody resp.Body]) := by
    simp [MixedInbound.handleHttpProxy, hd, hr]
  rw [htr]
  constructor
  · exact statusSent_copyHeader resp.StatusCode [ConnEvent.copyBody resp.Body] resp.Header
  · intro k
    show Header.get (headerSent canon (copyHeader resp.Header ++ _) []) k = _
    rw [headerSent_copyHeader, show headerSent canon
        [ConnEvent.writeHeader resp.StatusCode, ConnEvent.copyBody resp.Body]
        (addAll canon resp.Header []) = addAll canon resp.Header [] from rfl,
      get_addAll canon k resp.Header [] hcanon hnodup]
    simp [Header.get]

/-- Witness for C16: an upstream answer with two `Set-Cookie` values. -/
theorem handleHttpProxy_copies_status_and_headers_witness :
    (sampleWithDialer.getDialer = some (Except.ok { id := 7 })
      ∧ (∀ kv ∈ [("Set-Cookie", ["a=1", "b=2"]), ("Content-Type", ["text/html"])],
          sampleCanon kv.1 = kv.1)
      ∧ ([("Set-Cookie", ["a=1", "b=2"]), ("Content-Type", ["text/html"])].map Prod.fst).Nodup)
    ∧ statusSent (sampleWithDialer.handleHttpProxy sampleUpstream
          { Method := "GET", Host := "example.org", URL := "http://example.org/" }) = some 200
    ∧ ∀ k, Header.get (headerSent sampleCanon (sampleWithDialer.handleHttpProxy sampleUpstream
          { Method := "GET", Host := "example.org", URL := "http://example.org/" }) []) k
        = Header.get [("Set-Cookie", ["a=1", "b=2"]), ("Content-Type", ["text/html"])] k :=
  ⟨⟨rfl, fun _ _ => rfl, by decide⟩,
    handleHttpProxy_copies_status_and_headers sampleWithDialer sampleUpstream
      { Method := "GET", Host := "example.org", URL := "http://example.org/" } { id := 7 }
      { StatusCode := 200
        Header := [("Set-Cookie", ["a=1", "b=2"]), ("Content-Type", ["text/html"])]
        Body := [111, 107] }
      sampleCanon rfl rfl (fun _ _ => rfl) (by decide)⟩

end Mixed

/-! ## Theorems: utils.go -/

namespace Internal

theorem scanName_ascii : ∀ rs : List Nat, (∀ r ∈ rs, r ≤ 127) →
    ((scanName rs).hasWhitespace = true ↔ ∃ r ∈ rs, isSlashOrSpace r = true) := by
  intro rs
  induction rs with
  | nil => intro _; simp [scanName]
  | cons r rest ih =>
    intro h
    have hr : ¬ 127 < r := by
      have := h r (List.mem_cons_self _ _)
      omega
    have ih2 := ih (fun x hx => h x (List.mem_cons_of_mem _ hx))
    unfold scanName
    rw [if_neg hr]
    by_cases hs : isSlashOrSpace r = true
    · rw [if_pos hs]
      simp [hs]
    · rw [if_neg hs, ih2]
      simp [hs]

/-- For a name made of ASCII characters only, `CheckIfname` returns an error exactly when
the name is empty or contains a slash or a whitespace character. -/
theorem checkIfname_ascii (name : String)
    (h : ∀ r ∈ name.data.map Char.toNat, r ≤ 127) :
    ((CheckIfname name).1.isSome = true
      ↔ name = "" ∨ ∃ r ∈ name.data.map Char.toNat, isSlashOrSpace r = true) := by
  unfold CheckIfname
  by_cases he : name = ""
  · simp [he]
  · rw [if_neg he]
    have hsc := scanName_ascii (name.data.map Char.toNat) h
    by_cases hw : (scanName (name.data.map Char.toNat)).hasWhitespace = true
    · simp only [hw, if_true, Option.isSome_some, true_iff]
      exact Or.inr (hsc.mp hw)
    · have hn : ¬ ∃ r ∈ name.data.map Char.toNat, isSlashOrSpace r = true :=
        fun hex => hw (hsc.mpr hex)
      simp only [hw, Bool.false_eq_true, if_false, Option.isSome_none, false_iff, not_or]
      exact ⟨he, hn⟩

/-- C24 (the code at the failing input): the name made of `é` followed by a slash
contains a slash, and so does the name `é 0` a space, yet `CheckIfname` returns nil for
both and only logs the non-ASCII warning: the scan stops at the first non-ASCII
character. -/
theorem checkIfname_misses_slash_after_nonASCII :
    (47 ∈ "é/".data.map Char.toNat ∧ isSlashOrSpace 47 = true)
      ∧ CheckIfname "é/" = (none, [Warning.nonASCII])
      ∧ (32 ∈ "é 0".data.map Char.toNat ∧ isSlashOrSpace 32 = true)
      ∧ CheckIfname "é 0" = (none, [Warning.nonASCII]) := by
  decide

theorem local_ne_format (m : String) : "invalid local address: " ++ m ≠ formatErrMsg := by
  intro h
  have h2 := congrArg (fun t : String => t.data.get? 8) h
  simp only [String.data_append] at h2
  have h3 : ("invalid local address: ".data ++ m.data).get? 8 = some 'l' := rfl
  have h4 : formatErrMsg.data.get? 8 = some 'p' := by decide
  rw [h3, h4] at h2
  exact absurd h2 (by decide)

theorem remote_ne_format (m : String) : "invalid remote address: " ++ m ≠ formatErrMsg := by
  intro h
  have h2 := congrArg (fun t : String => t.data.get? 8) h
  simp only [String.data_append] at h2
  have h3 : ("invalid remote address: ".data ++ m.data).get? 8 = some 'r' := rfl
  have h4 : formatErrMsg.data.get? 8 = some 'p' := by decide
  rw [h3, h4] at h2
  exact absurd h2 (by decide)

theorem err_ne_format {α : Type} (m : String) (h : m ≠ formatErrMsg) :
    (Except.error (Error.other m) : Except Error α) ≠ Except.error (Error.other formatErrMsg) := by
  intro he
  injection he with he1
  injection he1 with he2
  exact h he2

theorem parseFields_ne_format (lib : Resolver) (b : String) (parts : List String) :
    parseFields lib b parts ≠ Except.error (Error.other formatErrMsg) := by
  match parts with
  | [] => exact err_ne_format _ (by decide)
  | [_] => exact err_ne_format _ (by decide)
  | [_, _] => exact err_ne_format _ (by decide)
  | f0 :: f1 :: f2 :: rest =>
    simp only [parseFields]
    cases Atoi f0 with
    | none => exact err_ne_format _ (by decide)
    | some lp =>
      dsimp only
      by_cases hlp : lp ≤ 0 ∨ 65535 < lp
      · rw [if_pos hlp]; exact err_ne_format _ (by decide)
      · rw [if_neg hlp]
        by_cases hh : (!lib.ParseIP f1 && !isValidHostname f1) = true
        · rw [if_pos hh]; exact err_ne_format _ (by decide)
        · rw [if_neg hh]
          cases Atoi f2 with
          | none => exact err_ne_format _ (by decide)
          | some rp =>
            dsimp only
            by_cases hrp : rp ≤ 0 ∨ 65535 < rp
            · rw [if_pos hrp]; exact err_ne_format _ (by decide)
            · rw [if_neg hrp]
              cases resolveBindAddress lib
                  (if (if (hasOpenBracketPrefix b && hasCloseBracketSuffix b) = true
                        then trimBrackets b else b) = "*" then "0.0.0.0"
                    else if (hasOpenBracketPrefix b && hasCloseBracketSuffix b) = true
                      then trimBrackets b else b) with
              | error err => exact err_ne_format _ (local_ne_format _)
              | ok b3 =>
                dsimp only
                cases resolveBindAddress lib f1 with
                | error err => exact err_ne_format _ (remote_ne_format _)
                | ok r => intro h; cases h

theorem bindAndRest_none_iff (parts : List String) :
    bindAndRest parts = none
      ↔ ¬ (parts.length = 3 ∨ parts.length = 4
            ∨ (4 ≤ parts.length ∧ bracketedFirst parts = true)) := by
  cases parts with
  | nil => simp [bindAndRest, bracketedFirst]
  | cons p0 rest =>
    simp only [bindAndRest, bracketedFirst]
    by_cases h1 : (decide (4 ≤ (p0 :: rest).length) && hasOpenBracketPrefix p0
        && containsCloseBracket p0) = true
    · rw [if_pos h1]
      simp only [Bool.and_eq_true, decide_eq_true_eq] at h1
      have hge : 4 ≤ (p0 :: rest).length := h1.1.1
      have hbr : (hasOpenBracketPrefix p0 && containsCloseBracket p0) = true := by
        simp [h1.1.2, h1.2]
      simp only [reduceCtorEq, false_iff, not_not]
      exact Or.inr (Or.inr ⟨hge, hbr⟩)
    · rw [if_neg h1]
      by_cases h3 : (p0 :: rest).length = 3
      · rw [if_pos h3]
        simp [h3]
      · rw [if_neg h3]
        by_cases h4 : (p0 :: rest).length = 4
        · rw [if_pos h4]
          simp [h4]
        · rw [if_neg h4]
          simp only [Bool.and_eq_true, decide_eq_true_eq] at h1
          simp only [true_iff, not_or, not_and]
          refine ⟨h3, h4, ?_⟩
          intro hge hb
          simp only [Bool.and_eq_true] at hb
          exact h1 ⟨⟨hge, hb.1⟩, hb.2⟩

theorem bindAndRest_three (parts : List String) (h : parts.length = 3) :
    bindAndRest parts = some ("localhost", parts) := by
  match parts, h with
  | [a, b, c], _ => simp [bindAndRest]

theorem parseFields_localhost (lib : Resolver) (parts : List String)
    (r : String × Int × String × Int) (h : parseFields lib "localhost" parts = .ok r) :
    lib.ResolveTCPAddr "localhost" = .ok r.1 := by
  have hb : (hasOpenBracketPrefix "localhost" && hasCloseBracketSuffix "localhost") = false := by
    decide
  have hs : ¬ ("localhost" = "*") := by decide
  match parts with
  | [] => simp [parseFields] at h
  | [_] => simp [parseFields] at h
  | [_, _] => simp [parseFields] at h
  | f0 :: f1 :: f2 :: rest =>
    simp only [parseFields, hb, Bool.false_eq_true, if_false, hs] at h
    cases h0 : Atoi f0 with
    | none => simp [h0] at h
    | some lp =>
      simp only [h0] at h
      by_cases hlp : lp ≤ 0 ∨ 65535 < lp
      · rw [if_pos hlp] at h; cases h
      · rw [if_neg hlp] at h
        by_cases hh : (!lib.ParseIP f1 && !isValidHostname f1) = true
        · rw [if_pos hh] at h; cases h
        · rw [if_neg hh] at h
          cases h2 : Atoi f2 with
          | none => simp [h2] at h
          | some rp =>
            simp only [h2] at h
            by_cases hrp : rp ≤ 0 ∨ 65535 < rp
            · rw [if_pos hrp] at h; cases h
            · rw [if_neg hrp] at h
              unfold resolveBindAddress at h
              cases hr1 : lib.ResolveTCPAddr "localhost" with
              | error err => simp [hr1] at h
              | ok b3 =>
                simp only [hr1] at h
                cases hr2 : lib.ResolveTCPAddr f1 with
                | error err => simp [hr2] at h
                | ok rr =>
                  simp only [hr2] at h
                  cases h
                  rfl

/-- C25 (the code at the failing input): the input `[127.0.0.1]:8080:10.0.0.1:80:junk`
has five colon-separated fields, yet `ParsePortMapping` does not reject it: it returns a
mapping and silently drops the fifth field.  The same five fields without brackets are
rejected with the format error, and so is the bracketed IPv6 form
`[::1]:8080:10.0.0.1:80`, which the first branch was written for. -/
theorem parsePortMapping_accepts_five_fields :
    (Split "[127.0.0.1]:8080:10.0.0.1:80:junk" (Char.ofNat 58)).length = 5
      ∧ ParsePortMapping sampleResolver "[127.0.0.1]:8080:10.0.0.1:80:junk"
          = .ok { BindAddress := "127.0.0.1", LocalPort := 8080, RemoteIP := "10.0.0.1",
                  RemotePort := 80 }
      ∧ (Split "127.0.0.1:8080:10.0.0.1:80:junk" (Char.ofNat 58)).length = 5
      ∧ ParsePortMapping sampleResolver "127.0.0.1:8080:10.0.0.1:80:junk"
          = .error (.other formatErrMsg)
      ∧ ParsePortMapping sampleResolver "[::1]:8080:10.0.0.1:80"
          = .error (.other formatErrMsg) := by
  exact ⟨by decide, rfl, by decide, rfl, rfl⟩

/-- The format check of `parsePortMapping` as the code performs it: the "invalid port
mapping format" error is returned exactly when the number of colon-separated fields is
neither 3 nor 4 and the input does not have at least 4 fields with the first one starting
with `[` and containing `]`.  For an input of exactly 3 fields the bind address is taken
to be `localhost`: an accepted mapping carries the address `localhost` resolves to. -/
theorem parsePortMapping_format_check (lib : Resolver) (port : String) :
    (ParsePortMapping lib port = .error (.other formatErrMsg)
        ↔ ¬ ((Split port (Char.ofNat 58)).length = 3 ∨ (Split port (Char.ofNat 58)).length = 4
              ∨ (4 ≤ (Split port (Char.ofNat 58)).length
                  ∧ bracketedFirst (Split port (Char.ofNat 58)) = true)))
      ∧ ((Split port (Char.ofNat 58)).length = 3 → ∀ m, ParsePortMapping lib port = .ok m →
          lib.ResolveTCPAddr "localhost" = .ok m.BindAddress) := by
  constructor
  · rw [← bindAndRest_none_iff]
    unfold ParsePortMapping parsePortMapping
    cases hb : bindAndRest (Split port (Char.ofNat 58)) with
    | none => simp
    | some br =>
      obtain ⟨b, parts⟩ := br
      simp only [reduceCtorEq, iff_false]
      have hne := parseFields_ne_format lib b parts
      cases hp : parseFields lib b parts with
      | error err =>
        rw [hp] at hne
        intro h
        exact hne (by simpa using h)
      | ok r =>
        obtain ⟨r1, r2, r3, r4⟩ := r
        intro h
        cases h
  · intro h3 m hm
    unfold ParsePortMapping parsePortMapping at hm
    rw [bindAndRest_three _ h3] at hm
    cases hp : parseFields lib "localhost" (Split port (Char.ofNat 58)) with
    | error err => simp [hp] at hm
    | ok r =>
      have := parseFields_localhost lib _ r hp
      simp only [hp] at hm
      cases hm
      exact this

end Internal

/-! ## Theorems: run.go -/

namespace Cmd

open Usque.Router Usque.Config

theorem constructed_append (a b : List RunEvent) :
    constructed (a ++ b) = constructed a ++ constructed b := by
  induction a with
  | nil => rfl
  | cons x xs ih => cases x <;> simp [constructed, ih]

theorem startedOnes_append (a b : List RunEvent) :
    startedOnes (a ++ b) = startedOnes a ++ startedOnes b := by
  induction a with
  | nil => rfl
  | cons x xs ih => cases x <;> simp [startedOnes, ih]

theorem reportedCounts_append (a b : List RunEvent) :
    reportedCounts (a ++ b) = reportedCounts a ++ reportedCounts b := by
  induction a with
  | nil => rfl
  | cons x xs ih => cases x <;> simp [reportedCounts, ih]

theorem createInbounds_spec (r : DefaultRouter) : ∀ decls : List InboundOptions,
    constructed (createInbounds r decls).2 = knownInbounds decls
      ∧ (createInbounds r decls).1.map Inbound.config = knownInbounds decls
      ∧ startedOnes (createInbounds r decls).2 = []
      ∧ reportedCounts (createInbounds r decls).2 = [] := by
  intro decls
  induction decls with
  | nil => exact ⟨rfl, rfl, rfl, rfl⟩
  | cons o rest ih =>
    obtain ⟨h1, h2, h3, h4⟩ := ih
    unfold createInbounds knownInbounds
    by_cases ht : o.Typ = "tun"
    · simp only [ht, if_true]
      refine ⟨?_, ?_, h3, h4⟩
      · simp [constructed, h1, knownInbounds, List.filter_cons, ht]
      · simp [h2, knownInbounds, List.filter_cons, ht, Inbound.config, Tun.New]
    · by_cases hm : o.Typ = "mixed"
      · simp only [ht, hm, if_true, if_false]
        refine ⟨?_, ?_, h3, h4⟩
        · simp [constructed, h1, knownInbounds, List.filter_cons, ht, hm]
        · simp [h2, knownInbounds, List.filter_cons, ht, hm, Inbound.config, Mixed.New]
      · simp only [ht, hm, if_false]
        refine ⟨?_, ?_, h3, h4⟩
        · simp [constructed, h1, knownInbounds, List.filter_cons, ht, hm]
        · simp [h2, knownInbounds, List.filter_cons, ht, hm]

theorem startInbounds_spec (start : Inbound → Option Error) : ∀ inbs : List Inbound,
    constructed (startInbounds start inbs).2 = []
      ∧ reportedCounts (startInbounds start inbs).2 = []
      ∧ startedOnes (startInbounds start inbs).2 <+: inbs.map Inbound.config
      ∧ ((∀ i, start i = none) →
          (startInbounds start inbs).1 = true
            ∧ startedOnes (startInbounds start inbs).2 = inbs.map Inbound.config) := by
  intro inbs
  induction inbs with
  | nil => exact ⟨rfl, rfl, List.prefix_refl _, fun _ => ⟨rfl, rfl⟩⟩
  | cons i rest ih =>
    obtain ⟨h1, h2, h3, h4⟩ := ih
    unfold startInbounds
    cases hs : start i with
    | some err =>
      refine ⟨rfl, rfl, ?_, ?_⟩
      · simp [startedOnes]
      · intro hall
        rw [hall i] at hs
        cases hs
    | none =>
      refine ⟨h1, h2, ?_, ?_⟩
      · simp only [startedOnes, List.map_cons]
        exact (List.prefix_cons_inj _).mpr h3
      · intro hall
        obtain ⟨h5, h6⟩ := h4 hall
        exact ⟨h5, by simp [startedOnes, h6]⟩

theorem startInbounds_all_ok (start : Inbound → Option Error) : ∀ inbs : List Inbound,
    (∀ j ∈ inbs, start j = none) →
    (startInbounds start inbs).1 = true
      ∧ startedOnes (startInbounds start inbs).2 = inbs.map Inbound.config := by
  intro inbs
  induction inbs with
  | nil => intro _; exact ⟨rfl, rfl⟩
  | cons i rest ih =>
    intro hall
    have hi : start i = none := hall i (List.mem_cons_self _ _)
    obtain ⟨h1, h2⟩ := ih (fun j hj => hall j (List.mem_cons_of_mem _ hj))
    unfold startInbounds
    rw [hi]
    exact ⟨h1, by simp [startedOnes, h2]⟩

theorem startInbounds_first_failure (start : Inbound → Option Error) (i : Inbound)
    (post : List Inbound) (e : Error) (hi : start i = some e) : ∀ pre : List Inbound,
    (∀ j ∈ pre, start j = none) →
    (startInbounds start (pre ++ i :: post)).1 = false
      ∧ startedOnes (startInbounds start (pre ++ i :: post)).2
          = (pre ++ [i]).map Inbound.config := by
  intro pre
  induction pre with
  | nil =>
    intro _
    simp only [List.nil_append]
    unfold startInbounds
    rw [hi]
    exact ⟨rfl, rfl⟩
  | cons p pre ih =>
    intro hall
    have hp : start p = none := hall p (List.mem_cons_self _ _)
    obtain ⟨h1, h2⟩ := ih (fun j hj => hall j (List.mem_cons_of_mem _ hj))
    simp only [List.cons_append]
    unfold startInbounds
    rw [hp]
    exact ⟨h1, by simp [startedOnes, h2]⟩

/-- C21 (refuted as stated): a configuration declaring a TUN inbound, an inbound of an
unknown type and a mixed inbound, run where the TUN inbound's `Start` fails.  The
supervisor starts the TUN inbound only, not the subsequence of the two known
declarations, and reports no running count. -/
theorem run_start_failure_counterexample :
    (knownInbounds sampleConfig.Inbounds).map (fun o => o.Tag) = ["tun-in", "mixed-in"]
      ∧ (startedOnes (Run sampleStartTunFails sampleConfig)).map (fun o => o.Tag) = ["tun-in"]
      ∧ reportedCounts (Run sampleStartTunFails sampleConfig) = [] := by
  decide

/-- C21 (amended): for every run configuration, the inbounds the supervisor constructs
are exactly the declarations of type `tun` or `mixed`, in declaration order; a
declaration of any other type is skipped and does not abort start-up.  The supervisor
then calls `Start` on them in that order.  When every one of these `Start` calls
succeeds, the inbounds started are exactly that subsequence and the reported running
count is its length.  When one fails, the inbounds started are those up to and including
the first failing one (the process ends there) and no running count is reported. -/
theorem run_starts_known_inbounds_until_failure (start : Inbound → Option Error)
    (cfg : Config) :
    constructed (Run start cfg) = knownInbounds cfg.Inbounds
      ∧ (createInbounds Router.New cfg.Inbounds).1.map Inbound.config
          = knownInbounds cfg.Inbounds
      ∧ startedOnes (Run start cfg) <+: knownInbounds cfg.Inbounds
      ∧ ((∀ i ∈ (createInbounds Router.New cfg.Inbounds).1, start i = none) →
          startedOnes (Run start cfg) = knownInbounds cfg.Inbounds
            ∧ reportedCounts (Run start cfg) = [(knownInbounds cfg.Inbounds).length])
      ∧ (∀ pre i post e, (createInbounds Router.New cfg.Inbounds).1 = pre ++ i :: post →
          (∀ j ∈ pre, start j = none) → start i = some e →
          startedOnes (Run start cfg) = (pre ++ [i]).map Inbound.config
            ∧ reportedCounts (Run start cfg) = []) := by
  obtain ⟨c1, c2, c3, c4⟩ := createInbounds_spec Router.New cfg.Inbounds
  obtain ⟨s1, s2, s3, _⟩ := startInbounds_spec start (createInbounds Router.New cfg.Inbounds).1
  have hlen : (createInbounds Router.New cfg.Inbounds).1.length
      = (knownInbounds cfg.Inbounds).length := by
    rw [← c2, List.length_map]
  have hcon : constructed (Run start cfg) = knownInbounds cfg.Inbounds := by
    unfold Run
    dsimp only
    split
    · rw [constructed_append, constructed_append, c1, s1]
      simp [constructed]
    · rw [constructed_append, c1, s1]
      simp
  have hst : startedOnes (Run start cfg)
      = startedOnes (startInbounds start (createInbounds Router.New cfg.Inbounds).1).2 := by
    unfold Run
    dsimp only
    split
    · rw [startedOnes_append, startedOnes_append, c3]
      simp [startedOnes]
    · rw [startedOnes_append, c3]
      simp
  refine ⟨hcon, c2, ?_, ?_, ?_⟩
  · rw [hst, ← c2]
    exact s3
  · intro hall
    obtain ⟨h5, h6⟩ := startInbounds_all_ok start _ hall
    refine ⟨by rw [hst, h6, c2], ?_⟩
    unfold Run
    dsimp only
    rw [if_pos h5, reportedCounts_append, reportedCounts_append, c4, s2, hlen]
    rfl
  · intro pre i post e hsplit hpre hi
    obtain ⟨h5, h6⟩ := startInbounds_first_failure start i post e hi pre hpre
    rw [← hsplit] at h5 h6
    refine ⟨by rw [hst, h6], ?_⟩
    unfold Run
    dsimp only
    rw [h5]
    simp only [Bool.false_eq_true, if_false]
    rw [reportedCounts_append, c4, s2]
    rfl

/-- Witness for C21 (amended): three declarations, the middle one of an unknown type;
once with every `Start` succeeding, once with the TUN inbound's `Start` failing. -/
theorem run_starts_known_inbounds_until_failure_witness :
    ((∀ i ∈ (createInbounds Router.New sampleConfig.Inbounds).1,
          (fun _ : Inbound => (none : Option Error)) i = none)
      ∧ (createInbounds Router.New sampleConfig.Inbounds).1
          = [] ++ Inbound.tun (Tun.New (some Router.New)
                { Typ := "tun", Tag := "tun-in", Options := [] })
              :: [Inbound.mixed (Mixed.New (some Router.New)
                { Typ := "mixed", Tag := "mixed-in", Options := [] })]
      ∧ sampleStartTunFails (Inbound.tun (Tun.New (some Router.New)
            { Typ := "tun", Tag := "tun-in", Options := [] }))
          = some (Error.other "failed to start remote tunnel"))
    ∧ (startedOnes (Run (fun _ => none) sampleConfig) = knownInbounds sampleConfig.Inbounds
      ∧ reportedCounts (Run (fun _ => none) sampleConfig)
          = [(knownInbounds sampleConfig.Inbounds).length])
    ∧ (startedOnes (Run sampleStartTunFails sampleConfig)
          = ([] ++ [Inbound.tun (Tun.New (some Router.New)
                { Typ := "tun", Tag := "tun-in", Options := [] })]).map Inbound.config
      ∧ reportedCounts (Run sampleStartTunFails sampleConfig) = []) :=
  ⟨⟨fun _ _ => rfl, rfl, rfl⟩,
    (run_starts_known_inbounds_until_failure (fun _ => none) sampleConfig).2.2.2.1
      (fun _ _ => rfl),
    (run_starts_known_inbounds_until_failure sampleStartTunFails sampleConfig).2.2.2.2
      [] (Inbound.tun (Tun.New (some Router.New)
        { Typ := "tun", Tag := "tun-in", Options := [] }))
      [Inbound.mixed (Mixed.New (some Router.New)
        { Typ := "mixed", Tag := "mixed-in", Options := [] })]
      (Error.other "failed to start remote tunnel") rfl (fun _ hj => by simp at hj) rfl⟩

end Cmd

/-! ## Theorems: mixed.go, the listener -/

namespace Mixed

open Usque.Router Usque.Config

theorem intOfFloat_default : intOfFloat 1080 = 1080 := by
  have h1 : (1080 : Rat).num = 1080 := rfl
  have h2 : (1080 : Rat).den = 1 := rfl
  unfold intOfFloat
  simp only [h1, h2]
  decide

theorem start_host (o : InboundOptions) :
    (if (o.getString "listen").getD "" = "" then "0.0.0.0" else (o.getString "listen").getD "")
      = statedListen o := by
  unfold InboundOptions.getString statedListen
  cases o.Options.lookup "listen" with
  | none => rfl
  | some v => cases v <;> rfl

theorem start_port (o : InboundOptions)
    (hrange : -9223372036854775808 ≤ statedListenPort o
      ∧ statedListenPort o ≤ 9223372036854775807) :
    intOfFloat (if (o.getNumber "listen_port").getD 0 = 0 then 1080
        else (o.getNumber "listen_port").getD 0)
      = statedListenPort o := by
  unfold InboundOptions.getNumber statedListenPort at *
  cases h : o.Options.lookup "listen_port" with
  | none => simp [intOfFloat_default]
  | some v =>
    cases v with
    | number x =>
      simp only [h] at hrange
      by_cases hx : x = 0
      · simp [hx, intOfFloat_default]
      · simp only [hx, if_false] at hrange
        simp only [Option.getD_some, hx, if_false, intOfFloat]
        rw [if_pos hrange]
    | null => simp [intOfFloat_default]
    | bool b => simp [intOfFloat_default]
    | str s => simp [intOfFloat_default]
    | array xs => simp [intOfFloat_default]
    | object kvs => simp [intOfFloat_default]

/-- C22: `MixedInbound.Start` listens, once, on the TCP address `<listen>:<listen_port>`,
where `<listen>` is the string option `listen`, or `0.0.0.0` when that option is absent,
empty or not a string, and `<listen_port>` is the numeric option `listen_port` with its
fraction discarded, or 1080 when that option is absent, zero or not a number (the port
lying within the range of a 64-bit integer). -/
theorem mixed_start_listens_on_stated_address (m : MixedInbound)
    (listen : String → String → Except Error Listener)
    (hrange : -9223372036854775808 ≤ statedListenPort m.config
      ∧ statedListenPort m.config ≤ 9223372036854775807) :
    ∃ rest, (m.Start listen).2.2
        = StartEvent.listen "tcp"
            (statedListen m.config ++ ":" ++ toString (statedListenPort m.config)) :: rest
      ∧ ∀ e ∈ rest, e = StartEvent.goAcceptLoop := by
  have hh := start_host m.config
  have hp := start_port m.config hrange
  unfold MixedInbound.Start
  simp only [hh, hp]
  cases listen "tcp" (statedListen m.config ++ ":" ++ toString (statedListenPort m.config)) with
  | error err => exact ⟨[], rfl, fun e he => by simp at he⟩
  | ok l => exact ⟨[StartEvent.goAcceptLoop], rfl, fun e he => by simpa using he⟩

/-- Witness for C22: `listen` 127.0.0.1 with `listen_port` 8080.5 gives the address
`127.0.0.1:8080`. -/
theorem mixed_start_listens_on_stated_address_witness :
    ((-9223372036854775808 : Int) ≤ statedListenPort sampleListening.config
      ∧ statedListenPort sampleListening.config ≤ 9223372036854775807)
    ∧ (statedListen sampleListening.config ++ ":"
          ++ toString (statedListenPort sampleListening.config) = "127.0.0.1:8080")
    ∧ ∃ rest, (sampleListening.Start sampleListen).2.2
        = StartEvent.listen "tcp"
            (statedListen sampleListening.config ++ ":"
              ++ toString (statedListenPort sampleListening.config)) :: rest
      ∧ ∀ e ∈ rest, e = StartEvent.goAcceptLoop :=
  ⟨by decide, by decide,
    mixed_start_listens_on_stated_address sampleListening sampleListen (by decide)⟩

theorem acceptN_same (l : oneShotListener) (c : peekingConn) (h : l.conn = some c) :
    ∀ n, l.AcceptN n = List.replicate n (some c, none) := by
  intro n
  induction n with
  | zero => rfl
  | succ n ih =>
    rw [oneShotListener.AcceptN, ih, List.replicate_succ]
    simp [oneShotListener.Accept, h]

/-- C27 (the code at the failing input): three successive `Accept` calls on a
`oneShotListener` wrapping a connection all return that connection with a nil error; the
second and third do not return `io.EOF`.  `Accept` clears `conn` in its own copy of the
listener only. -/
theorem oneShotListener_accepts_again :
    oneShotListener.AcceptN
        { conn := some { Conn := { incoming := [] }, reader := { buf := [71], err := none } } } 3
      = [(some { Conn := { incoming := [] }, reader := { buf := [71], err := none } }, none),
          (some { Conn := { incoming := [] }, reader := { buf := [71], err := none } }, none),
          (some { Conn := { incoming := [] }, reader := { buf := [71], err := none } }, none)]
      ∧ (oneShotListener.Accept
          { conn := some { Conn := { incoming := [] }, reader := { buf := [71], err := none } } }).2
        = { conn := none } := by
  decide

end Mixed

/-! ## Theorems: tun.go, Start: the MTU and failure after the tunnel is open -/

namespace Tun

open Usque.Router Usque.Config

/-- C23 (refuted as stated): an inbound configured with `mtu: 1400` creates its local
stack with MTU 1280. -/
theorem start_mtu_option_counterexample :
    (∃ x, sampleMtu.config.Options.lookup "mtu" = some (Value.number x) ∧ x = 1400)
      ∧ mtusUsed (sampleMtu.Start sampleEnv).2.2 = [1280] := by
  exact ⟨⟨1400, rfl, rfl⟩, by decide⟩

/-- C23 (amended): the TUN inbound creates its local stack, native or netstack, with MTU
1280 whatever its configuration says: the `mtu` option is not read.  A run of `Start`
creates at most one local stack, and when it creates one the MTU it passes is 1280. -/
theorem start_uses_fixed_mtu (t : TunInbound) (env : StartEnv) :
    mtusUsed (t.Start env).2.2 = [] ∨ mtusUsed (t.Start env).2.2 = [1280] := by
  unfold TunInbound.Start
  cases env.NewTransport "masque-default" with
  | error e => exact Or.inl rfl
  | ok tr =>
    dsimp only
    cases env.StartTunnel tr with
    | error e => exact Or.inl rfl
    | ok rc =>
      dsimp only
      by_cases hs : t.stackType = "system"
      · rw [if_pos hs]
        cases env.newNativeDevice t.tag 1280 <;> exact Or.inr rfl
      · rw [if_neg hs]
        by_cases hn : t.stackType = "netstack"
        · rw [if_pos hn]
          cases env.CreateNetTUN 1280 with
          | error e => exact Or.inr rfl
          | ok dn =>
            obtain ⟨tunDev, tunNet⟩ := dn
            dsimp only
            cases t.router <;> exact Or.inr rfl
        · rw [if_neg hn]
          exact Or.inl rfl

theorem start_closes_nothing (t : TunInbound) (env : StartEnv) :
    closeCalls (t.Start env).2.2 = [] := by
  unfold TunInbound.Start
  cases env.NewTransport "masque-default" with
  | error e => rfl
  | ok tr =>
    dsimp only
    cases env.StartTunnel tr with
    | error e => rfl
    | ok rc =>
      dsimp only
      by_cases hs : t.stackType = "system"
      · rw [if_pos hs]
        cases env.newNativeDevice t.tag 1280 <;> rfl
      · rw [if_neg hs]
        by_cases hn : t.stackType = "netstack"
        · rw [if_pos hn]
          cases env.CreateNetTUN 1280 with
          | error e => rfl
          | ok dn =>
            obtain ⟨tunDev, tunNet⟩ := dn
            dsimp only
            cases t.router <;> rfl
        · rw [if_neg hn]
          rfl

theorem start_keeps_remote (t : TunInbound) (env : StartEnv) (tr : Transport)
    (rc : PacketConn) (hN : env.NewTransport "masque-default" = .ok tr)
    (hS : env.StartTunnel tr = .ok rc) :
    (t.Start env).2.1.remoteConn = some rc := by
  unfold TunInbound.Start
  simp only [hN, hS]
  by_cases hs : t.stackType = "system"
  · rw [if_pos hs]
    cases env.newNativeDevice t.tag 1280 <;> rfl
  · rw [if_neg hs]
    by_cases hn : t.stackType = "netstack"
    · rw [if_pos hn]
      cases env.CreateNetTUN 1280 with
      | error e => rfl
      | ok dn =>
        obtain ⟨tunDev, tunNet⟩ := dn
        dsimp only
        cases t.router <;> rfl
    · rw [if_neg hn]

/-- C26 (refuted as stated): the tunnel opens, then creating the netstack device fails
(and, for another inbound, the stack type is unknown); `Start` returns an error having
made no `Close` call, and the remote `PacketConn` is still held, open, by the inbound. -/
theorem start_failure_leaves_tunnel_open_counterexample :
    ((sampleFresh.Start sampleEnvNoNetstack).1
        = some (Error.wrap "failed to create netstack device: " (Error.other "out of memory"))
      ∧ closeCalls (sampleFresh.Start sampleEnvNoNetstack).2.2 = []
      ∧ (sampleFresh.Start sampleEnvNoNetstack).2.1.remoteConn
          = some { name := "masque", closeErr := none })
    ∧ ((sampleUnknownStack.Start sampleEnv).1 = some (Error.other "unknown stack type: gvisor")
      ∧ closeCalls (sampleUnknownStack.Start sampleEnv).2.2 = []
      ∧ (sampleUnknownStack.Start sampleEnv).2.1.remoteConn
          = some { name := "masque", closeErr := none }) := by
  decide

/-- C26 (amended): `Start` never closes anything.  If it returns an error after
`StartTunnel` has succeeded, the remote `PacketConn` opened by `StartTunnel` has not been
closed when `Start` returns; it stays in the inbound's `remoteConn`, and it is a later
`Close` of the inbound that closes it. -/
theorem start_failure_keeps_tunnel_for_close (t : TunInbound) (env : StartEnv)
    (tr : Transport) (rc : PacketConn) (e : Error)
    (hN : env.NewTransport "masque-default" = .ok tr) (hS : env.StartTunnel tr = .ok rc)
    (_hfail : (t.Start env).1 = some e) :
    closeCalls (t.Start env).2.2 = []
      ∧ (t.Start env).2.1.remoteConn = some rc
      ∧ rc ∈ closeCalls (t.Start env).2.1.Close.2.2 := by
  have hk := start_keeps_remote t env tr rc hN hS
  refine ⟨start_closes_nothing t env, hk, ?_⟩
  unfold TunInbound.Close
  rw [hk]
  cases (t.Start env).2.1.localStack <;> simp [closeCalls]

/-- Witness for C26 (amended): the tunnel opens and creating the netstack device fails. -/
theorem start_failure_keeps_tunnel_for_close_witness :
    (sampleEnvNoNetstack.NewTransport "masque-default" = .ok { tag := "masque-default" }
      ∧ sampleEnvNoNetstack.StartTunnel { tag := "masque-default" }
          = .ok { name := "masque", closeErr := none }
      ∧ (sampleFresh.Start sampleEnvNoNetstack).1
          = some (Error.wrap "failed to create netstack device: " (Error.other "out of memory")))
    ∧ closeCalls (sampleFresh.Start sampleEnvNoNetstack).2.2 = []
    ∧ (sampleFresh.Start sampleEnvNoNetstack).2.1.remoteConn
        = some { name := "masque", closeErr := none }
    ∧ ({ name := "masque", closeErr := none } : PacketConn)
        ∈ closeCalls (sampleFresh.Start sampleEnvNoNetstack).2.1.Close.2.2 :=
  ⟨⟨rfl, rfl, by decide⟩,
    start_failure_keeps_tunnel_for_close sampleFresh sampleEnvNoNetstack
      { tag := "masque-default" } { name := "masque", closeErr := none }
      (Error.wrap "failed to create netstack device: " (Error.other "out of memory"))
      rfl rfl (by decide)⟩

end Tun

end Usque
